import Mathlib

/-!
Shallow embedding of the sprint-backlog project-management backend
(Go sources under internal/service, internal/repository, internal/models,
pkg/constants), restricted to the parts the verified claims touch:

* the sprint lifecycle service (Create, Update, Start, Complete, AddItem,
  RemoveItem, GetReport) over a relational store modelled as lists of rows;
* the backlog-item service (Create, UpdateStatus, AddLabel);
* the dual history ledgers (sprint history, item history) with the
  fire-and-forget write helpers used by the services;
* the user-activity aggregator (GetActivities).

Conventions of the embedding:
* Go string-typed enums (SprintStatus, ItemStatus, ItemType, Priority,
  actions) are Lean Strings together with the IsValid predicates from
  pkg/constants; this keeps the Go representation, where any string can
  inhabit the type and validity is a runtime check.
* time.Time is an Int; the Go zero time is 0, and t1.After t2 is t1 > t2.
* uuid.UUID is a Nat; uuid.New() for a row insert is modelled by a fresh
  id strictly larger than every id in the store.
* gorm query errors other than record-not-found are not modelled (the
  services only forward them); the one fallible write the claims inspect,
  history-row creation, is modelled through the Store.historyFails flag.
* the opaque JSON old/new payloads of history rows are not modelled: no
  claim inspects them, only row counts, actions and timestamps.
-/

namespace SB

/-! ### Constants (pkg/constants/status.go, actions.go) -/

def sprintStatusPlanning : String := "Planning"

def sprintStatusActive : String := "Active"

def sprintStatusCompleted : String := "Completed"

def sprintStatusCancelled : String := "Cancelled"

/-- SprintStatus.IsValid from pkg/constants. -/
def sprintStatusIsValid (s : String) : Bool :=
  s == sprintStatusPlanning || s == sprintStatusActive ||
  s == sprintStatusCompleted || s == sprintStatusCancelled

def itemStatusNew : String := "New"

def itemStatusReady : String := "Ready"

def itemStatusInProgress : String := "In Progress"

def itemStatusDone : String := "Done"

def itemStatusArchived : String := "Archived"

/-- ItemStatus.IsValid from pkg/constants. -/
def itemStatusIsValid (s : String) : Bool :=
  s == itemStatusNew || s == itemStatusReady || s == itemStatusInProgress ||
  s == itemStatusDone || s == itemStatusArchived

/-- ItemType.IsValid from pkg/constants: Story, Bug, Task, Epic. -/
def itemTypeIsValid (t : String) : Bool :=
  t == "Story" || t == "Bug" || t == "Task" || t == "Epic"

/-- Priority.IsValid from pkg/constants: Critical, High, Medium, Low. -/
def priorityIsValid (p : String) : Bool :=
  p == "Critical" || p == "High" || p == "Medium" || p == "Low"

/-! ### Data model (internal/models) -/

/-- models.Sprint (relation fields and gorm bookkeeping omitted). -/
structure Sprint where
  id : Nat
  projectId : Nat
  createdById : Nat
  name : String
  goal : Option String
  startDate : Int
  endDate : Int
  status : String
  velocity : Option Int
deriving Repr, DecidableEq

/-- models.BacklogItem (relation fields and gorm bookkeeping omitted). -/
structure BacklogItem where
  id : Nat
  projectId : Nat
  sprintId : Option Nat
  createdById : Nat
  title : String
  description : Option String
  type : String
  priority : String
  status : String
  storyPoints : Option Int
  labels : List String
  position : Int
deriving Repr, DecidableEq

/-- models.SprintHistory (JSON payload fields omitted, see header). -/
structure SprintHistory where
  sprintId : Nat
  userId : Nat
  itemId : Option Nat
  action : String
  timestamp : Int
deriving Repr, DecidableEq

/-- models.ItemHistory (JSON payload fields omitted, see header). -/
structure ItemHistory where
  itemId : Nat
  userId : Nat
  action : String
  fieldChanged : Option String
  timestamp : Int
deriving Repr, DecidableEq

/-- The relational store the repositories run against, as row lists, plus
the environment facts the claims need: whether history-row inserts fail
(db error on Create) and the current wall-clock used for time.Now(). -/
structure Store where
  sprints : List Sprint
  items : List BacklogItem
  sprintHistories : List SprintHistory
  itemHistories : List ItemHistory
  historyFails : Bool
  now : Int
deriving Repr, DecidableEq

/-! ### Repositories (internal/repository) -/

namespace SprintRepo

/-- sprintRepository.GetByID: first row with the id, nil when absent. -/
def GetByID (st : Store) (id : Nat) : Option Sprint :=
  st.sprints.find? (fun s => s.id == id)

/-- sprintRepository.GetActive: first row of the project with status
Active, nil when none exists. -/
def GetActive (st : Store) (projectId : Nat) : Option Sprint :=
  st.sprints.find? (fun s => s.projectId == projectId && s.status == sprintStatusActive)

/-- sprintRepository.Create: insert a row. -/
def Create (st : Store) (sprint : Sprint) : Store :=
  { st with sprints := st.sprints ++ [sprint] }

/-- sprintRepository.Update (db.Save): replace the row with that id. -/
def Update (st : Store) (sprint : Sprint) : Store :=
  { st with sprints := st.sprints.map (fun s => if s.id == sprint.id then sprint else s) }

/-- sprintRepository.UpdateStatus: single-column update of the row. -/
def UpdateStatus (st : Store) (id : Nat) (status : String) : Store :=
  { st with sprints :=
      st.sprints.map (fun s => if s.id == id then { s with status := status } else s) }

/-- sprintRepository.GetItemsBySprintID: items whose sprint_id is the id. -/
def GetItemsBySprintID (st : Store) (sprintId : Nat) : List BacklogItem :=
  st.items.filter (fun i => i.sprintId == some sprintId)

/-- sprintRepository.CalculateVelocity:
COALESCE(SUM(story_points), 0) over items of the sprint with status Done
(SQL SUM skips NULL story_points, hence getD 0). -/
def CalculateVelocity (st : Store) (sprintId : Nat) : Int :=
  (((st.items.filter
      (fun i => i.sprintId == some sprintId && i.status == itemStatusDone)).map
    (fun i => i.storyPoints.getD 0)).sum)

end SprintRepo

namespace BacklogRepo

/-- backlogRepository.GetByID. -/
def GetByID (st : Store) (id : Nat) : Option BacklogItem :=
  st.items.find? (fun i => i.id == id)

/-- backlogRepository.Create. -/
def Create (st : Store) (item : BacklogItem) : Store :=
  { st with items := st.items ++ [item] }

/-- backlogRepository.Update (db.Save). -/
def Update (st : Store) (item : BacklogItem) : Store :=
  { st with items := st.items.map (fun i => if i.id == item.id then item else i) }

/-- backlogRepository.UpdateStatus. -/
def UpdateStatus (st : Store) (id : Nat) (status : String) : Store :=
  { st with items :=
      st.items.map (fun i => if i.id == id then { i with status := status } else i) }

/-- backlogRepository.AddLabel:
UPDATE backlog_items SET labels = array_append(labels, l)
WHERE id = ? AND NOT (l = ANY(labels)) — the guard makes the append
conditional on the label being absent. -/
def AddLabel (st : Store) (id : Nat) (label : String) : Store :=
  { st with items :=
      st.items.map (fun i =>
        if i.id == id && !(i.labels.contains label)
        then { i with labels := i.labels ++ [label] } else i) }

/-- backlogRepository.GetMaxPosition:
COALESCE(MAX(position), 0) over the items of the project. -/
def GetMaxPosition (st : Store) (projectId : Nat) : Int :=
  match ((st.items.filter (fun i => i.projectId == projectId)).map
      (fun i => i.position)).max? with
  | none => 0
  | some m => m

end BacklogRepo

namespace SprintHistoryRepo

/-- sprintHistoryRepository.Create: db.Create, which can fail; failure is
modelled by the Store.historyFails environment flag. -/
def Create (st : Store) (h : SprintHistory) : Except Unit Store :=
  if st.historyFails then .error ()
  else .ok { st with sprintHistories := st.sprintHistories ++ [h] }

/-- sprintHistoryRepository.GetByUserID: rows of the user ordered by
timestamp DESC, LIMIT applied only when limit > 0. -/
def GetByUserID (st : Store) (userId : Nat) (limit : Int) : List SprintHistory :=
  let rows := st.sprintHistories.filter (fun h => h.userId == userId)
  let sorted := List.insertionSort (fun a b => b.timestamp ≤ a.timestamp) rows
  if limit > 0 then sorted.take limit.toNat else sorted

end SprintHistoryRepo

namespace ItemHistoryRepo

/-- itemHistoryRepository.Create, same failure model as the sprint ledger. -/
def Create (st : Store) (h : ItemHistory) : Except Unit Store :=
  if st.historyFails then .error ()
  else .ok { st with itemHistories := st.itemHistories ++ [h] }

/-- itemHistoryRepository.GetByUserID. -/
def GetByUserID (st : Store) (userId : Nat) (limit : Int) : List ItemHistory :=
  let rows := st.itemHistories.filter (fun h => h.userId == userId)
  let sorted := List.insertionSort (fun a b => b.timestamp ≤ a.timestamp) rows
  if limit > 0 then sorted.take limit.toNat else sorted

end ItemHistoryRepo

/-! ### Service layer (internal/service) -/

/-- Go strings.TrimSpace: drop leading and trailing whitespace. Modelled
over the character list so it reduces in the kernel (String.trim is built
on Substring auxiliaries that do not); the Unicode space classes beyond
ASCII whitespace are irrelevant to every claims input. -/
def trimSpace (s : String) : String :=
  String.mk (((s.data.dropWhile Char.isWhitespace).reverse.dropWhile
    Char.isWhitespace).reverse)

/-- The typed service errors (sprint_service.go, backlog_service.go vars). -/
inductive ServiceError where
  | sprintNotFound
  | sprintAlreadyActive
  | sprintNotPlanning
  | sprintNotActive
  | invalidDateRange
  | itemAlreadyInSprint
  | itemNotInSprint
  | backlogItemNotFound
  | invalidItemType
  | invalidPriority
  | invalidStatus
  | labelEmpty
deriving Repr, DecidableEq

/-- sprintService.recordSprintHistory: builds the row with time.Now() and
calls sprintHistoryRepo.Create, DISCARDING its error (fire-and-forget:
the Go helper neither checks nor returns the error). -/
def recordSprintHistory (st : Store) (sprintId userId : Nat) (itemId : Option Nat)
    (action : String) : Store :=
  match SprintHistoryRepo.Create st
      { sprintId := sprintId, userId := userId, itemId := itemId,
        action := action, timestamp := st.now } with
  | .ok st2 => st2
  | .error _ => st

/-- sprintService.recordItemHistory and backlogService.recordHistory:
builds the row and calls itemHistoryRepo.Create, DISCARDING its error. -/
def recordItemHistory (st : Store) (itemId userId : Nat) (action : String)
    (fieldChanged : Option String) : Store :=
  match ItemHistoryRepo.Create st
      { itemId := itemId, userId := userId, action := action,
        fieldChanged := fieldChanged, timestamp := st.now } with
  | .ok st2 => st2
  | .error _ => st

/-- dto/request.CreateSprintRequest. -/
structure CreateSprintRequest where
  projectId : Nat
  name : String
  goal : String
  startDate : Int
  endDate : Int
deriving Repr, DecidableEq

/-- dto/request.UpdateSprintRequest: all fields optional; absent strings
bind to "" and absent dates to the zero time (0 here). -/
structure UpdateSprintRequest where
  name : String
  goal : String
  startDate : Int
  endDate : Int
deriving Repr, DecidableEq

/-- A fresh sprint id for uuid.New(): strictly larger than every stored id. -/
def freshSprintId (st : Store) : Nat :=
  (st.sprints.map Sprint.id).foldr max 0 + 1

/-- A fresh backlog-item id for uuid.New(). -/
def freshItemId (st : Store) : Nat :=
  (st.items.map BacklogItem.id).foldr max 0 + 1

namespace SprintService

/-- The sprint row sprintService.Create builds: status Planning, trimmed
name, goal set only when non-empty (then trimmed), dates as given. -/
def newSprint (st : Store) (req : CreateSprintRequest) (userId : Nat) : Sprint :=
  { id := freshSprintId st, projectId := req.projectId, createdById := userId,
    name := trimSpace req.name,
    goal := if req.goal != "" then some (trimSpace req.goal) else none,
    startDate := req.startDate, endDate := req.endDate,
    status := sprintStatusPlanning, velocity := none }

/-- sprintService.Create: reject unless EndDate.After(StartDate); insert
with status Planning and the trimmed name/goal; record a Created sprint
history row; return the re-fetched row. -/
def Create (st : Store) (req : CreateSprintRequest) (userId : Nat) :
    Store × Except ServiceError Sprint :=
  if !(req.endDate > req.startDate) then (st, .error .invalidDateRange)
  else
    let sprint : Sprint := newSprint st req userId
    let st1 := SprintRepo.Create st sprint
    let st2 := recordSprintHistory st1 sprint.id userId none "Created"
    match SprintRepo.GetByID st2 sprint.id with
    | none => (st2, .error .sprintNotFound)
    | some created => (st2, .ok created)

/-- The in-memory field-by-field diff sprintService.Update applies to the
fetched sprint before re-validating the date range: a zero-valued request
field ("" or the zero time) is skipped, as is a field equal to the stored
value; name and goal are trimmed when written. -/
def applyUpdate (sprint : Sprint) (req : UpdateSprintRequest) : Sprint :=
  let s1 := if req.name != "" && req.name != sprint.name
            then { sprint with name := trimSpace req.name } else sprint
  let s2 := if req.goal != "" && req.goal != sprint.goal.getD ""
            then { s1 with goal := some (trimSpace req.goal) } else s1
  let s3 := if req.startDate != 0 && req.startDate != sprint.startDate
            then { s2 with startDate := req.startDate } else s2
  if req.endDate != 0 && req.endDate != sprint.endDate
  then { s3 with endDate := req.endDate } else s3

/-- Whether sprintService.Update collected at least one change (len(changes) > 0),
deciding whether the consolidated history row is recorded. -/
def updateChanged (sprint : Sprint) (req : UpdateSprintRequest) : Bool :=
  (req.name != "" && req.name != sprint.name) ||
  (req.goal != "" && req.goal != sprint.goal.getD "") ||
  (req.startDate != 0 && req.startDate != sprint.startDate) ||
  (req.endDate != 0 && req.endDate != sprint.endDate)

/-- sprintService.Update: fetch, diff, re-validate EndDate.After(StartDate)
on the diffed value, persist, and (when something changed) record one
consolidated history row — which the source tags with the Created action. -/
def Update (st : Store) (id : Nat) (req : UpdateSprintRequest) (userId : Nat) :
    Store × Except ServiceError Sprint :=
  match SprintRepo.GetByID st id with
  | none => (st, .error .sprintNotFound)
  | some sprint =>
    let s := applyUpdate sprint req
    if !(s.endDate > s.startDate) then (st, .error .invalidDateRange)
    else
      let st1 := SprintRepo.Update st s
      let st2 := if updateChanged sprint req
                 then recordSprintHistory st1 id userId none "Created" else st1
      match SprintRepo.GetByID st2 id with
      | none => (st2, .error .sprintNotFound)
      | some updated => (st2, .ok updated)

/-- sprintService.Start: requires status Planning, then requires
GetActive(project) to find nothing; on success updates the status column
to Active, records a Started row, and returns the re-fetched sprint. -/
def Start (st : Store) (id userId : Nat) : Store × Except ServiceError Sprint :=
  match SprintRepo.GetByID st id with
  | none => (st, .error .sprintNotFound)
  | some sprint =>
    if sprint.status != sprintStatusPlanning then (st, .error .sprintNotPlanning)
    else
      match SprintRepo.GetActive st sprint.projectId with
      | some _ => (st, .error .sprintAlreadyActive)
      | none =>
        let st1 := SprintRepo.UpdateStatus st id sprintStatusActive
        let st2 := recordSprintHistory st1 id userId none "Started"
        match SprintRepo.GetByID st2 id with
        | none => (st2, .error .sprintNotFound)
        | some updated => (st2, .ok updated)

/-- sprintService.Complete: requires status Active; computes the velocity
from the store at completion time, saves the sprint with status Completed
and the velocity in one Update, records a Completed row. -/
def Complete (st : Store) (id userId : Nat) : Store × Except ServiceError Sprint :=
  match SprintRepo.GetByID st id with
  | none => (st, .error .sprintNotFound)
  | some sprint =>
    if sprint.status != sprintStatusActive then (st, .error .sprintNotActive)
    else
      let velocity := SprintRepo.CalculateVelocity st id
      let sprint1 := { sprint with status := sprintStatusCompleted, velocity := some velocity }
      let st1 := SprintRepo.Update st sprint1
      let st2 := recordSprintHistory st1 id userId none "Completed"
      match SprintRepo.GetByID st2 id with
      | none => (st2, .error .sprintNotFound)
      | some updated => (st2, .ok updated)

/-- sprintService.AddItem: both entities must exist; fails when the item
is already in this sprint; otherwise saves the item with the new sprint
reference and records ItemAdded on the sprint ledger and SprintAssigned
(field sprint_id) on the item ledger. -/
def AddItem (st : Store) (sprintId itemId userId : Nat) :
    Store × Except ServiceError (List BacklogItem) :=
  match SprintRepo.GetByID st sprintId with
  | none => (st, .error .sprintNotFound)
  | some _ =>
    match BacklogRepo.GetByID st itemId with
    | none => (st, .error .backlogItemNotFound)
    | some item =>
      if item.sprintId == some sprintId then (st, .error .itemAlreadyInSprint)
      else
        let st1 := BacklogRepo.Update st { item with sprintId := some sprintId }
        let st2 := recordSprintHistory st1 sprintId userId (some itemId) "ItemAdded"
        let st3 := recordItemHistory st2 itemId userId "SprintAssigned" (some "sprint_id")
        (st3, .ok (SprintRepo.GetItemsBySprintID st3 sprintId))

/-- sprintService.RemoveItem: fails unless the item is in this sprint;
otherwise clears the sprint reference and records ItemRemoved and
SprintRemoved symmetrically. -/
def RemoveItem (st : Store) (sprintId itemId userId : Nat) :
    Store × Except ServiceError (List BacklogItem) :=
  match SprintRepo.GetByID st sprintId with
  | none => (st, .error .sprintNotFound)
  | some _ =>
    match BacklogRepo.GetByID st itemId with
    | none => (st, .error .backlogItemNotFound)
    | some item =>
      if item.sprintId != some sprintId then (st, .error .itemNotInSprint)
      else
        let st1 := BacklogRepo.Update st { item with sprintId := none }
        let st2 := recordSprintHistory st1 sprintId userId (some itemId) "ItemRemoved"
        let st3 := recordItemHistory st2 itemId userId "SprintRemoved" (some "sprint_id")
        (st3, .ok (SprintRepo.GetItemsBySprintID st3 sprintId))

end SprintService

/-- dto/response.SprintReportResponse (sprint summary field omitted). -/
structure SprintReport where
  totalItems : Nat
  completedItems : Nat
  totalStoryPoints : Int
  completedStoryPoints : Int
  velocity : Int
  completionPercentage : Rat
deriving Repr, DecidableEq

namespace SprintService

/-- sprintService.GetReport: one pass over the items of the sprint,
counting items and Done items and summing story points (nil treated as
absent, hence 0); completionPercentage guards totalItems = 0; velocity is
the stored value when set, else the live completedStoryPoints.
The Go float64 percentage is modelled as an exact rational. -/
def GetReport (st : Store) (id : Nat) : Except ServiceError SprintReport :=
  match SprintRepo.GetByID st id with
  | none => .error .sprintNotFound
  | some sprint =>
    let items := SprintRepo.GetItemsBySprintID st id
    let totalItems := items.length
    let doneItems := items.filter (fun i => i.status == itemStatusDone)
    let completedItems := doneItems.length
    let totalStoryPoints := (items.map (fun i => i.storyPoints.getD 0)).sum
    let completedStoryPoints := (doneItems.map (fun i => i.storyPoints.getD 0)).sum
    let completionPercentage : Rat :=
      if totalItems > 0 then (completedItems : Rat) / (totalItems : Rat) * 100 else 0
    let velocity := match sprint.velocity with
      | some v => v
      | none => completedStoryPoints
    .ok { totalItems := totalItems, completedItems := completedItems,
          totalStoryPoints := totalStoryPoints,
          completedStoryPoints := completedStoryPoints,
          velocity := velocity, completionPercentage := completionPercentage }

end SprintService

/-- dto/request.CreateBacklogItemRequest. -/
structure CreateBacklogItemRequest where
  projectId : Nat
  title : String
  description : String
  type : String
  priority : String
  status : String
  storyPoints : Option Int
  labels : List String
  sprintId : Option Nat
deriving Repr, DecidableEq

namespace BacklogService

/-- The item row backlogService.Create builds for a given (already
defaulted) status: position is GetMaxPosition(project) + 1, title trimmed,
description set only when non-empty. -/
def newItem (st : Store) (req : CreateBacklogItemRequest) (userId : Nat)
    (status : String) : BacklogItem :=
  { id := freshItemId st, projectId := req.projectId, sprintId := req.sprintId,
    createdById := userId, title := trimSpace req.title,
    description := if req.description != "" then some (trimSpace req.description) else none,
    type := req.type, priority := req.priority, status := status,
    storyPoints := req.storyPoints, labels := req.labels,
    position := BacklogRepo.GetMaxPosition st req.projectId + 1 }

/-- backlogService.Create: validates the type, priority and (defaulted)
status enums; position is GetMaxPosition(project) + 1; inserts the item
and records a Created history row; returns the re-fetched item. -/
def Create (st : Store) (req : CreateBacklogItemRequest) (userId : Nat) :
    Store × Except ServiceError BacklogItem :=
  if !itemTypeIsValid req.type then (st, .error .invalidItemType)
  else if !priorityIsValid req.priority then (st, .error .invalidPriority)
  else
    let status := if req.status == "" then itemStatusNew else req.status
    if !itemStatusIsValid status then (st, .error .invalidStatus)
    else
      let item : BacklogItem := newItem st req userId status
      let st1 := BacklogRepo.Create st item
      let st2 := recordItemHistory st1 item.id userId "Created" none
      match BacklogRepo.GetByID st2 item.id with
      | none => (st2, .error .backlogItemNotFound)
      | some created => (st2, .ok created)

/-- backlogService.UpdateStatus: validates the enum, fetches the item,
updates the status column, records a StatusChanged row. -/
def UpdateStatus (st : Store) (id : Nat) (status : String) (userId : Nat) :
    Store × Except ServiceError BacklogItem :=
  if !itemStatusIsValid status then (st, .error .invalidStatus)
  else
    match BacklogRepo.GetByID st id with
    | none => (st, .error .backlogItemNotFound)
    | some _ =>
      let st1 := BacklogRepo.UpdateStatus st id status
      let st2 := recordItemHistory st1 id userId "StatusChanged" (some "status")
      match BacklogRepo.GetByID st2 id with
      | none => (st2, .error .backlogItemNotFound)
      | some updated => (st2, .ok updated)

/-- backlogService.AddLabel: trims the label and rejects "", requires the
item to exist, delegates to the guarded repository AddLabel, and records
a LabelAdded history row unconditionally. -/
def AddLabel (st : Store) (id : Nat) (label : String) (userId : Nat) :
    Store × Except ServiceError BacklogItem :=
  let label := trimSpace label
  if label == "" then (st, .error .labelEmpty)
  else
    match BacklogRepo.GetByID st id with
    | none => (st, .error .backlogItemNotFound)
    | some _ =>
      let st1 := BacklogRepo.AddLabel st id label
      let st2 := recordItemHistory st1 id userId "LabelAdded" none
      match BacklogRepo.GetByID st2 id with
      | none => (st2, .error .backlogItemNotFound)
      | some updated => (st2, .ok updated)

end BacklogService

/-! ### Activity aggregator (userService.GetActivities) -/

/-- dto/response.UserActivityResponse, reduced to the fields the claims
inspect: the stream tag, the action and the timestamp. -/
structure UserActivity where
  typeTag : String
  action : String
  timestamp : Int
deriving Repr, DecidableEq

/-- dto/response.UserActivitiesResponse. -/
structure UserActivitiesResponse where
  activities : List UserActivity
  total : Nat
  limit : Int
deriving Repr, DecidableEq

/-- The descending-timestamp comparison the aggregator sorts by
(sort.Slice with less i j = Timestamp_i.After(Timestamp_j)). -/
def actGE (a b : UserActivity) : Prop := b.timestamp ≤ a.timestamp

instance : DecidableRel actGE := fun a b => inferInstanceAs (Decidable (b.timestamp ≤ a.timestamp))

instance : IsTotal UserActivity actGE := ⟨fun a b => (le_total b.timestamp a.timestamp)⟩

instance : IsTrans UserActivity actGE := ⟨fun _ _ _ h1 h2 => le_trans h2 h1⟩

namespace UserService

/-- The merged, tagged activity list before sorting: the full item-history
stream then the full sprint-history stream of the user, both fetched with
limit 0 (no database-side limit). -/
def mergedActivities (st : Store) (userId : Nat) : List UserActivity :=
  (ItemHistoryRepo.GetByUserID st userId 0).map
    (fun h => { typeTag := "item", action := h.action, timestamp := h.timestamp }) ++
  (SprintHistoryRepo.GetByUserID st userId 0).map
    (fun h => { typeTag := "sprint", action := h.action, timestamp := h.timestamp })

/-- userService.GetActivities: merge both streams, sort descending by
timestamp, remember the pre-truncation count as total, and truncate to
the limit only when limit > 0 and the list is longer than it.
The in-place sort.Slice is modelled as a sort producing a permutation
ordered by the same comparison (Go does not pin down the tie order). -/
def GetActivities (st : Store) (userId : Nat) (limit : Int) : UserActivitiesResponse :=
  let activities := mergedActivities st userId
  let sorted := List.insertionSort actGE activities
  let total := sorted.length
  let truncated := if limit > 0 && (sorted.length : Int) > limit
                   then sorted.take limit.toNat else sorted
  { activities := truncated, total := total, limit := limit }

end UserService

end SB

namespace SB

/-! ### Helper lemmas about the embedded repositories -/

/-- find? by id commutes with mapping an id-preserving row transformation. -/
theorem find_id_map {α : Type} (getId : α → Nat) (f : α → α)
    (hf : ∀ x, getId (f x) = getId x) (l : List α) (id : Nat) :
    (l.map f).find? (fun x => getId x == id) =
      (l.find? (fun x => getId x == id)).map f := by
  have hcomp : ((fun x => getId x == id) ∘ f) = (fun x => getId x == id) := by
    funext x
    simp [Function.comp, hf]
  rw [List.find?_map, hcomp]

theorem sprints_recordSprintHistory (st : Store) (a b : Nat) (c : Option Nat)
    (d : String) : (recordSprintHistory st a b c d).sprints = st.sprints := by
  unfold recordSprintHistory SprintHistoryRepo.Create
  by_cases h : st.historyFails <;> simp [h]

theorem items_recordSprintHistory (st : Store) (a b : Nat) (c : Option Nat)
    (d : String) : (recordSprintHistory st a b c d).items = st.items := by
  unfold recordSprintHistory SprintHistoryRepo.Create
  by_cases h : st.historyFails <;> simp [h]

theorem itemHistories_recordSprintHistory (st : Store) (a b : Nat) (c : Option Nat)
    (d : String) : (recordSprintHistory st a b c d).itemHistories = st.itemHistories := by
  unfold recordSprintHistory SprintHistoryRepo.Create
  by_cases h : st.historyFails <;> simp [h]

theorem historyFails_recordSprintHistory (st : Store) (a b : Nat) (c : Option Nat)
    (d : String) : (recordSprintHistory st a b c d).historyFails = st.historyFails := by
  unfold recordSprintHistory SprintHistoryRepo.Create
  by_cases h : st.historyFails <;> simp [h]

theorem now_recordSprintHistory (st : Store) (a b : Nat) (c : Option Nat)
    (d : String) : (recordSprintHistory st a b c d).now = st.now := by
  unfold recordSprintHistory SprintHistoryRepo.Create
  by_cases h : st.historyFails <;> simp [h]

theorem sprintHistories_recordSprintHistory (st : Store) (a b : Nat) (c : Option Nat)
    (d : String) (h : st.historyFails = false) :
    (recordSprintHistory st a b c d).sprintHistories =
      st.sprintHistories ++
        [{ sprintId := a, userId := b, itemId := c, action := d, timestamp := st.now }] := by
  unfold recordSprintHistory SprintHistoryRepo.Create
  simp [h]

theorem sprints_recordItemHistory (st : Store) (a b : Nat) (c : String)
    (d : Option String) : (recordItemHistory st a b c d).sprints = st.sprints := by
  unfold recordItemHistory ItemHistoryRepo.Create
  by_cases h : st.historyFails <;> simp [h]

theorem items_recordItemHistory (st : Store) (a b : Nat) (c : String)
    (d : Option String) : (recordItemHistory st a b c d).items = st.items := by
  unfold recordItemHistory ItemHistoryRepo.Create
  by_cases h : st.historyFails <;> simp [h]

theorem sprintHistories_recordItemHistory (st : Store) (a b : Nat) (c : String)
    (d : Option String) :
    (recordItemHistory st a b c d).sprintHistories = st.sprintHistories := by
  unfold recordItemHistory ItemHistoryRepo.Create
  by_cases h : st.historyFails <;> simp [h]

theorem historyFails_recordItemHistory (st : Store) (a b : Nat) (c : String)
    (d : Option String) :
    (recordItemHistory st a b c d).historyFails = st.historyFails := by
  unfold recordItemHistory ItemHistoryRepo.Create
  by_cases h : st.historyFails <;> simp [h]

theorem now_recordItemHistory (st : Store) (a b : Nat) (c : String)
    (d : Option String) : (recordItemHistory st a b c d).now = st.now := by
  unfold recordItemHistory ItemHistoryRepo.Create
  by_cases h : st.historyFails <;> simp [h]

theorem itemHistories_recordItemHistory (st : Store) (a b : Nat) (c : String)
    (d : Option String) (h : st.historyFails = false) :
    (recordItemHistory st a b c d).itemHistories =
      st.itemHistories ++
        [{ itemId := a, userId := b, action := c, fieldChanged := d, timestamp := st.now }] := by
  unfold recordItemHistory ItemHistoryRepo.Create
  simp [h]

theorem mem_le_foldr_max (l : List Nat) (a : Nat) (h : a ∈ l) : a ≤ l.foldr max 0 := by
  induction l with
  | nil => cases h
  | cons x xs ih =>
      rcases List.mem_cons.mp h with h1 | h1
      · subst h1
        exact le_max_left _ _
      · exact le_trans (ih h1) (le_max_right _ _)

theorem freshSprintId_not_mem (st : Store) (s : Sprint) (h : s ∈ st.sprints) :
    s.id ≠ freshSprintId st := by
  have hle : s.id ≤ (st.sprints.map Sprint.id).foldr max 0 :=
    mem_le_foldr_max _ _ (List.mem_map_of_mem Sprint.id h)
  unfold freshSprintId
  omega

theorem freshItemId_not_mem (st : Store) (i : BacklogItem) (h : i ∈ st.items) :
    i.id ≠ freshItemId st := by
  have hle : i.id ≤ (st.items.map BacklogItem.id).foldr max 0 :=
    mem_le_foldr_max _ _ (List.mem_map_of_mem BacklogItem.id h)
  unfold freshItemId
  omega

/-- A countP bound for a mapped list: every mapped element satisfying p
comes from one satisfying p or from one satisfying q. -/
theorem countP_map_le_add {α : Type} (l : List α) (f : α → α) (p q : α → Bool)
    (h : ∀ x ∈ l, p (f x) = true → p x = true ∨ q x = true) :
    (l.map f).countP p ≤ l.countP p + l.countP q := by
  induction l with
  | nil => simp
  | cons x xs ih =>
      have hx := h x (List.mem_cons_self x xs)
      have ihx : (xs.map f).countP p ≤ xs.countP p + xs.countP q :=
        ih (fun y hy hpy => h y (List.mem_cons_of_mem x hy) hpy)
      rw [List.map_cons, List.countP_cons, List.countP_cons, List.countP_cons]
      by_cases hpf : p (f x) = true
      · rcases hx hpf with h1 | h1
        · rw [if_pos hpf, if_pos h1]
          omega
        · rw [if_pos hpf, if_pos h1]
          omega
      · rw [if_neg hpf]
        omega

/-- With pairwise-distinct ids, at most one row matches a given id. -/
theorem countP_id_le_one {α : Type} (getId : α → Nat) (l : List α) (v : Nat)
    (h : (l.map getId).Nodup) : l.countP (fun x => getId x == v) ≤ 1 := by
  have hcount := List.nodup_iff_count_le_one.mp h v
  rw [List.count] at hcount
  rw [List.countP_map] at hcount
  have : ((fun x => x == v) ∘ getId) = (fun x => getId x == v) := by
    funext x
    rfl
  rwa [this] at hcount

/-- With pairwise-distinct ids, the row find? returns is the only row with
that id. -/
theorem eq_of_mem_of_find_id {α : Type} (getId : α → Nat) (l : List α)
    (id : Nat) (a x : α) (hnodup : (l.map getId).Nodup)
    (hfind : l.find? (fun y => getId y == id) = some a)
    (hx : x ∈ l) (hid : getId x = id) : x = a := by
  have ha : a ∈ l := List.mem_of_find?_eq_some hfind
  have hpa := List.find?_some hfind
  have haid : getId a = id := Nat.eq_of_beq_eq_true (by simpa using hpa)
  exact List.inj_on_of_nodup_map hnodup hx ha (by rw [hid, haid])

end SB

namespace SB

/-! ### Re-fetch lemmas: GetByID after each row-updating repository call -/

theorem getByID_update_sprint (st : Store) (id : Nat) (sprint s : Sprint)
    (hfind : SprintRepo.GetByID st id = some sprint) (hid : s.id = sprint.id) :
    SprintRepo.GetByID (SprintRepo.Update st s) id = some s := by
  have hf : ∀ x : Sprint, ((fun x => if x.id == s.id then s else x) x).id = x.id := by
    intro x
    show (if x.id == s.id then s else x).id = x.id
    by_cases h : (x.id == s.id) = true
    · rw [if_pos h]
      exact (eq_of_beq h).symm
    · rw [if_neg h]
  show (st.sprints.map (fun x => if x.id == s.id then s else x)).find?
      (fun x => x.id == id) = some s
  rw [find_id_map Sprint.id (fun x => if x.id == s.id then s else x) hf st.sprints id]
  have hfind2 : st.sprints.find? (fun x => x.id == id) = some sprint := hfind
  rw [hfind2]
  simp [hid]

theorem getByID_updateStatus_sprint (st : Store) (id : Nat) (sprint : Sprint)
    (status : String) (hfind : SprintRepo.GetByID st id = some sprint) :
    SprintRepo.GetByID (SprintRepo.UpdateStatus st id status) id =
      some { sprint with status := status } := by
  have hf : ∀ x : Sprint,
      ((fun x => if x.id == id then { x with status := status } else x) x).id = x.id := by
    intro x
    show (if x.id == id then { x with status := status } else x).id = x.id
    by_cases h : (x.id == id) = true
    · rw [if_pos h]
    · rw [if_neg h]
  show (st.sprints.map
      (fun x => if x.id == id then { x with status := status } else x)).find?
      (fun x => x.id == id) = some _
  rw [find_id_map Sprint.id _ hf st.sprints id]
  have hfind2 : st.sprints.find? (fun x => x.id == id) = some sprint := hfind
  rw [hfind2]
  have hpa : sprint.id = id := by simpa using List.find?_some hfind2
  simp [hpa]

theorem getByID_create_sprint (st : Store) (s : Sprint)
    (hfresh : ∀ x ∈ st.sprints, x.id ≠ s.id) :
    SprintRepo.GetByID (SprintRepo.Create st s) s.id = some s := by
  show (st.sprints ++ [s]).find? (fun x => x.id == s.id) = some s
  rw [List.find?_append]
  have h1 : st.sprints.find? (fun x => x.id == s.id) = none :=
    List.find?_eq_none.mpr (fun x hx => by simp [hfresh x hx])
  rw [h1]
  simp

theorem getByID_update_item (st : Store) (id : Nat) (item it : BacklogItem)
    (hfind : BacklogRepo.GetByID st id = some item) (hid : it.id = item.id) :
    BacklogRepo.GetByID (BacklogRepo.Update st it) id = some it := by
  have hf : ∀ x : BacklogItem, ((fun x => if x.id == it.id then it else x) x).id = x.id := by
    intro x
    show (if x.id == it.id then it else x).id = x.id
    by_cases h : (x.id == it.id) = true
    · rw [if_pos h]
      exact (eq_of_beq h).symm
    · rw [if_neg h]
  show (st.items.map (fun x => if x.id == it.id then it else x)).find?
      (fun x => x.id == id) = some it
  rw [find_id_map BacklogItem.id (fun x => if x.id == it.id then it else x) hf st.items id]
  have hfind2 : st.items.find? (fun x => x.id == id) = some item := hfind
  rw [hfind2]
  simp [hid]

theorem getByID_updateStatus_item (st : Store) (id : Nat) (item : BacklogItem)
    (status : String) (hfind : BacklogRepo.GetByID st id = some item) :
    BacklogRepo.GetByID (BacklogRepo.UpdateStatus st id status) id =
      some { item with status := status } := by
  have hf : ∀ x : BacklogItem,
      ((fun x => if x.id == id then { x with status := status } else x) x).id = x.id := by
    intro x
    show (if x.id == id then { x with status := status } else x).id = x.id
    by_cases h : (x.id == id) = true
    · rw [if_pos h]
    · rw [if_neg h]
  show (st.items.map
      (fun x => if x.id == id then { x with status := status } else x)).find?
      (fun x => x.id == id) = some _
  rw [find_id_map BacklogItem.id _ hf st.items id]
  have hfind2 : st.items.find? (fun x => x.id == id) = some item := hfind
  rw [hfind2]
  have hpa : item.id = id := by simpa using List.find?_some hfind2
  simp [hpa]

theorem getByID_create_item (st : Store) (i : BacklogItem)
    (hfresh : ∀ x ∈ st.items, x.id ≠ i.id) :
    BacklogRepo.GetByID (BacklogRepo.Create st i) i.id = some i := by
  show (st.items ++ [i]).find? (fun x => x.id == i.id) = some i
  rw [List.find?_append]
  have h1 : st.items.find? (fun x => x.id == i.id) = none :=
    List.find?_eq_none.mpr (fun x hx => by simp [hfresh x hx])
  rw [h1]
  simp

theorem getByID_addLabel_item (st : Store) (id : Nat) (item : BacklogItem)
    (label : String) (hfind : BacklogRepo.GetByID st id = some item) :
    BacklogRepo.GetByID (BacklogRepo.AddLabel st id label) id =
      some (if item.labels.contains label then item
            else { item with labels := item.labels ++ [label] }) := by
  have hf : ∀ x : BacklogItem,
      ((fun x => if x.id == id && !(x.labels.contains label)
                 then { x with labels := x.labels ++ [label] } else x) x).id = x.id := by
    intro x
    show (if x.id == id && !(x.labels.contains label)
          then { x with labels := x.labels ++ [label] } else x).id = x.id
    by_cases h : (x.id == id && !(x.labels.contains label)) = true
    · rw [if_pos h]
    · rw [if_neg h]
  show (st.items.map
      (fun x => if x.id == id && !(x.labels.contains label)
                then { x with labels := x.labels ++ [label] } else x)).find?
      (fun x => x.id == id) = some _
  rw [find_id_map BacklogItem.id _ hf st.items id]
  have hfind2 : st.items.find? (fun x => x.id == id) = some item := hfind
  rw [hfind2]
  have hpa : item.id = id := by simpa using List.find?_some hfind2
  by_cases hc : item.labels.contains label = true
  · simp [hpa, hc]
  · simp only [Bool.not_eq_true] at hc
    simp [hpa, hc]

/-! ### The field-by-field behaviour of the sprint Update diff -/

theorem applyUpdate_spec (sprint : Sprint) (req : UpdateSprintRequest) :
    (SprintService.applyUpdate sprint req).id = sprint.id ∧
    (SprintService.applyUpdate sprint req).projectId = sprint.projectId ∧
    (SprintService.applyUpdate sprint req).createdById = sprint.createdById ∧
    (SprintService.applyUpdate sprint req).status = sprint.status ∧
    (SprintService.applyUpdate sprint req).velocity = sprint.velocity ∧
    (SprintService.applyUpdate sprint req).name =
      (if req.name != "" && req.name != sprint.name then trimSpace req.name else sprint.name) ∧
    (SprintService.applyUpdate sprint req).goal =
      (if req.goal != "" && req.goal != sprint.goal.getD ""
       then some (trimSpace req.goal) else sprint.goal) ∧
    (SprintService.applyUpdate sprint req).startDate =
      (if req.startDate != 0 && req.startDate != sprint.startDate
       then req.startDate else sprint.startDate) ∧
    (SprintService.applyUpdate sprint req).endDate =
      (if req.endDate != 0 && req.endDate != sprint.endDate
       then req.endDate else sprint.endDate) := by
  unfold SprintService.applyUpdate
  by_cases h1 : (req.name != "" && req.name != sprint.name) = true <;>
    by_cases h2 : (req.goal != "" && req.goal != sprint.goal.getD "") = true <;>
      by_cases h3 : (req.startDate != 0 && req.startDate != sprint.startDate) = true <;>
        by_cases h4 : (req.endDate != 0 && req.endDate != sprint.endDate) = true <;>
          simp [h1, h2, h3, h4]

end SB

namespace SB

/-! ### History writes do not disturb the entity tables -/

theorem getByID_sprint_recordSprintHistory (st : Store) (a b : Nat) (c : Option Nat)
    (d : String) (id : Nat) :
    SprintRepo.GetByID (recordSprintHistory st a b c d) id = SprintRepo.GetByID st id := by
  unfold SprintRepo.GetByID
  rw [sprints_recordSprintHistory]

theorem getByID_sprint_recordItemHistory (st : Store) (a b : Nat) (c : String)
    (d : Option String) (id : Nat) :
    SprintRepo.GetByID (recordItemHistory st a b c d) id = SprintRepo.GetByID st id := by
  unfold SprintRepo.GetByID
  rw [sprints_recordItemHistory]

theorem getByID_item_recordSprintHistory (st : Store) (a b : Nat) (c : Option Nat)
    (d : String) (id : Nat) :
    BacklogRepo.GetByID (recordSprintHistory st a b c d) id = BacklogRepo.GetByID st id := by
  unfold BacklogRepo.GetByID
  rw [items_recordSprintHistory]

theorem getByID_item_recordItemHistory (st : Store) (a b : Nat) (c : String)
    (d : Option String) (id : Nat) :
    BacklogRepo.GetByID (recordItemHistory st a b c d) id = BacklogRepo.GetByID st id := by
  unfold BacklogRepo.GetByID
  rw [items_recordItemHistory]

/-! ### The success path of sprintService.Update -/

theorem update_sprint_success (st : Store) (id userId : Nat) (req : UpdateSprintRequest)
    (sprint : Sprint) (hfind : SprintRepo.GetByID st id = some sprint)
    (hvalid : (SprintService.applyUpdate sprint req).endDate >
      (SprintService.applyUpdate sprint req).startDate) :
    SprintRepo.GetByID (SprintService.Update st id req userId).1 id =
      some (SprintService.applyUpdate sprint req) ∧
    (SprintService.Update st id req userId).2 = .ok (SprintService.applyUpdate sprint req) := by
  have hid : (SprintService.applyUpdate sprint req).id = sprint.id :=
    (applyUpdate_spec sprint req).1
  have hre : SprintRepo.GetByID (SprintRepo.Update st (SprintService.applyUpdate sprint req)) id
      = some (SprintService.applyUpdate sprint req) :=
    getByID_update_sprint st id sprint _ hfind hid
  have hb : (!decide ((SprintService.applyUpdate sprint req).endDate >
      (SprintService.applyUpdate sprint req).startDate)) = false := by
    simp [hvalid]
  have hst2 : SprintRepo.GetByID
      (if SprintService.updateChanged sprint req
       then recordSprintHistory (SprintRepo.Update st (SprintService.applyUpdate sprint req))
              id userId none "Created"
       else SprintRepo.Update st (SprintService.applyUpdate sprint req)) id =
      some (SprintService.applyUpdate sprint req) := by
    by_cases hch : SprintService.updateChanged sprint req = true
    · rw [if_pos hch, getByID_sprint_recordSprintHistory, hre]
    · rw [if_neg hch, hre]
  constructor
  · show SprintRepo.GetByID
        (SprintService.Update st id req userId).1 id = some (SprintService.applyUpdate sprint req)
    unfold SprintService.Update
    rw [hfind]
    simp only [hb, Bool.false_eq_true, if_false, hst2]
  · unfold SprintService.Update
    rw [hfind]
    simp only [hb, Bool.false_eq_true, if_false, hst2]

end SB

namespace SB

/-! ### Claim C10 -/

/-- Claim C10: sprint Update only ever modifies name, goal, start date and
end date; status, velocity, the project reference and the creator
reference are unchanged, a zero-valued request field (empty name or goal,
zero date) is treated as absent and leaves the stored field unchanged —
in particular an empty goal string never clears an existing goal — and on
a valid date range the stored row is exactly the diffed sprint. -/
theorem C10_sprint_update_frame (st : Store) (id userId : Nat)
    (req : UpdateSprintRequest) (sprint : Sprint)
    (hfind : SprintRepo.GetByID st id = some sprint) :
    (SprintService.applyUpdate sprint req).id = sprint.id ∧
    (SprintService.applyUpdate sprint req).projectId = sprint.projectId ∧
    (SprintService.applyUpdate sprint req).createdById = sprint.createdById ∧
    (SprintService.applyUpdate sprint req).status = sprint.status ∧
    (SprintService.applyUpdate sprint req).velocity = sprint.velocity ∧
    (req.name = "" → (SprintService.applyUpdate sprint req).name = sprint.name) ∧
    (req.goal = "" → (SprintService.applyUpdate sprint req).goal = sprint.goal) ∧
    (req.startDate = 0 → (SprintService.applyUpdate sprint req).startDate = sprint.startDate) ∧
    (req.endDate = 0 → (SprintService.applyUpdate sprint req).endDate = sprint.endDate) ∧
    ((SprintService.applyUpdate sprint req).endDate >
        (SprintService.applyUpdate sprint req).startDate →
      SprintRepo.GetByID (SprintService.Update st id req userId).1 id =
        some (SprintService.applyUpdate sprint req)) := by
  obtain ⟨ha, hb, hc, hd, he, hn, hg, hsd, hed⟩ := applyUpdate_spec sprint req
  refine ⟨ha, hb, hc, hd, he, ?_, ?_, ?_, ?_, ?_⟩
  · intro h
    rw [hn]
    simp [h]
  · intro h
    rw [hg]
    simp [h]
  · intro h
    rw [hsd]
    simp [h]
  · intro h
    rw [hed]
    simp [h]
  · intro hv
    exact (update_sprint_success st id userId req sprint hfind hv).1

def c10Sprint : Sprint :=
  { id := 1, projectId := 2, createdById := 3, name := "Alpha",
    goal := some "ship the mvp", startDate := 10, endDate := 20,
    status := "Planning", velocity := none }

def c10Store : Store :=
  { sprints := [c10Sprint], items := [], sprintHistories := [],
    itemHistories := [], historyFails := false, now := 50 }

def c10Req : UpdateSprintRequest :=
  { name := "", goal := "", startDate := 0, endDate := 30 }

/-- Witness for C10 at a concrete store, sprint and request. -/
theorem C10_sprint_update_frame_witness :
    SprintRepo.GetByID c10Store 1 = some c10Sprint ∧
    ((SprintService.applyUpdate c10Sprint c10Req).id = c10Sprint.id ∧
     (SprintService.applyUpdate c10Sprint c10Req).projectId = c10Sprint.projectId ∧
     (SprintService.applyUpdate c10Sprint c10Req).createdById = c10Sprint.createdById ∧
     (SprintService.applyUpdate c10Sprint c10Req).status = c10Sprint.status ∧
     (SprintService.applyUpdate c10Sprint c10Req).velocity = c10Sprint.velocity ∧
     (c10Req.name = "" → (SprintService.applyUpdate c10Sprint c10Req).name = c10Sprint.name) ∧
     (c10Req.goal = "" → (SprintService.applyUpdate c10Sprint c10Req).goal = c10Sprint.goal) ∧
     (c10Req.startDate = 0 →
       (SprintService.applyUpdate c10Sprint c10Req).startDate = c10Sprint.startDate) ∧
     (c10Req.endDate = 0 →
       (SprintService.applyUpdate c10Sprint c10Req).endDate = c10Sprint.endDate) ∧
     ((SprintService.applyUpdate c10Sprint c10Req).endDate >
         (SprintService.applyUpdate c10Sprint c10Req).startDate →
       SprintRepo.GetByID (SprintService.Update c10Store 1 c10Req 9).1 1 =
         some (SprintService.applyUpdate c10Sprint c10Req))) :=
  ⟨rfl, C10_sprint_update_frame c10Store 1 9 c10Req c10Sprint rfl⟩

/-! ### Claim C3 -/

/-- Claim C3: on sprint creation and on sprint update, a resulting end
date not strictly after the resulting start date fails with
InvalidDateRange and leaves the store untouched; otherwise the date
fields are persisted as given (creation stores the request dates
verbatim; update stores the diffed dates, which equal the request fields
whenever those are non-zero). -/
theorem C3_sprint_date_validation (st : Store) (creq : CreateSprintRequest)
    (id userId : Nat) (ureq : UpdateSprintRequest) (sprint : Sprint)
    (hfind : SprintRepo.GetByID st id = some sprint) :
    (¬ creq.endDate > creq.startDate →
      SprintService.Create st creq userId = (st, .error .invalidDateRange)) ∧
    (creq.endDate > creq.startDate →
      (SprintService.Create st creq userId).2 = .ok (SprintService.newSprint st creq userId) ∧
      (SprintService.newSprint st creq userId).startDate = creq.startDate ∧
      (SprintService.newSprint st creq userId).endDate = creq.endDate) ∧
    (¬ (SprintService.applyUpdate sprint ureq).endDate >
        (SprintService.applyUpdate sprint ureq).startDate →
      SprintService.Update st id ureq userId = (st, .error .invalidDateRange)) ∧
    ((SprintService.applyUpdate sprint ureq).endDate >
        (SprintService.applyUpdate sprint ureq).startDate →
      SprintRepo.GetByID (SprintService.Update st id ureq userId).1 id =
        some (SprintService.applyUpdate sprint ureq)) ∧
    (ureq.startDate ≠ 0 →
      (SprintService.applyUpdate sprint ureq).startDate = ureq.startDate) ∧
    (ureq.endDate ≠ 0 →
      (SprintService.applyUpdate sprint ureq).endDate = ureq.endDate) := by
  obtain ⟨ha, hb, hc, hd, he, hn, hg, hsd, hed⟩ := applyUpdate_spec sprint ureq
  refine ⟨?_, ?_, ?_, ?_, ?_, ?_⟩
  · intro h
    have hcond : (!decide (creq.endDate > creq.startDate)) = true := by simp [h]
    unfold SprintService.Create
    rw [if_pos hcond]
  · intro h
    have hcond : (!decide (creq.endDate > creq.startDate)) = false := by simp [h]
    have hre : SprintRepo.GetByID
        (recordSprintHistory (SprintRepo.Create st (SprintService.newSprint st creq userId))
          (SprintService.newSprint st creq userId).id userId none "Created")
        (SprintService.newSprint st creq userId).id =
        some (SprintService.newSprint st creq userId) := by
      rw [getByID_sprint_recordSprintHistory]
      exact getByID_create_sprint st _ (fun x hx => freshSprintId_not_mem st x hx)
    refine ⟨?_, rfl, rfl⟩
    unfold SprintService.Create
    simp only [hcond, Bool.false_eq_true, if_false, hre]
  · intro h
    have hcond : (!decide ((SprintService.applyUpdate sprint ureq).endDate >
        (SprintService.applyUpdate sprint ureq).startDate)) = true := by simp [h]
    unfold SprintService.Update
    rw [hfind]
    simp [hcond]
  · intro hv
    exact (update_sprint_success st id userId ureq sprint hfind hv).1
  · intro h
    rw [hsd]
    by_cases h2 : ureq.startDate = sprint.startDate <;> simp [h, h2]
  · intro h
    rw [hed]
    by_cases h2 : ureq.endDate = sprint.endDate <;> simp [h, h2]

def c3Sprint : Sprint :=
  { id := 1, projectId := 1, createdById := 2, name := "S1", goal := none,
    startDate := 10, endDate := 20, status := "Planning", velocity := none }

def c3Store : Store :=
  { sprints := [c3Sprint], items := [], sprintHistories := [],
    itemHistories := [], historyFails := false, now := 99 }

def c3CreateReq : CreateSprintRequest :=
  { projectId := 1, name := "S2", goal := "", startDate := 5, endDate := 9 }

def c3UpdateReq : UpdateSprintRequest :=
  { name := "", goal := "", startDate := 0, endDate := 25 }

/-- Witness for C3 at a concrete store, sprint and requests. -/
theorem C3_sprint_date_validation_witness :
    SprintRepo.GetByID c3Store 1 = some c3Sprint ∧
    ((¬ c3CreateReq.endDate > c3CreateReq.startDate →
       SprintService.Create c3Store c3CreateReq 4 = (c3Store, .error .invalidDateRange)) ∧
     (c3CreateReq.endDate > c3CreateReq.startDate →
       (SprintService.Create c3Store c3CreateReq 4).2 =
         .ok (SprintService.newSprint c3Store c3CreateReq 4) ∧
       (SprintService.newSprint c3Store c3CreateReq 4).startDate = c3CreateReq.startDate ∧
       (SprintService.newSprint c3Store c3CreateReq 4).endDate = c3CreateReq.endDate) ∧
     (¬ (SprintService.applyUpdate c3Sprint c3UpdateReq).endDate >
         (SprintService.applyUpdate c3Sprint c3UpdateReq).startDate →
       SprintService.Update c3Store 1 c3UpdateReq 4 = (c3Store, .error .invalidDateRange)) ∧
     ((SprintService.applyUpdate c3Sprint c3UpdateReq).endDate >
         (SprintService.applyUpdate c3Sprint c3UpdateReq).startDate →
       SprintRepo.GetByID (SprintService.Update c3Store 1 c3UpdateReq 4).1 1 =
         some (SprintService.applyUpdate c3Sprint c3UpdateReq)) ∧
     (c3UpdateReq.startDate ≠ 0 →
       (SprintService.applyUpdate c3Sprint c3UpdateReq).startDate = c3UpdateReq.startDate) ∧
     (c3UpdateReq.endDate ≠ 0 →
       (SprintService.applyUpdate c3Sprint c3UpdateReq).endDate = c3UpdateReq.endDate)) :=
  ⟨rfl, C3_sprint_date_validation c3Store c3CreateReq 1 4 c3UpdateReq c3Sprint rfl⟩

end SB

namespace SB

/-! ### Claim C4 -/

def c4Sprint : Sprint :=
  { id := 1, projectId := 1, createdById := 8, name := "S", goal := none,
    startDate := 10, endDate := 20, status := "Planning", velocity := none }

def c4ItemA : BacklogItem :=
  { id := 10, projectId := 1, sprintId := some 1, createdById := 8,
    title := "A", description := none, type := "Story", priority := "High",
    status := "Done", storyPoints := some 5, labels := [], position := 1 }

def c4ItemB : BacklogItem :=
  { id := 11, projectId := 1, sprintId := some 1, createdById := 8,
    title := "B", description := none, type := "Task", priority := "Low",
    status := "New", storyPoints := some 3, labels := [], position := 2 }

def c4Store : Store :=
  { sprints := [c4Sprint], items := [c4ItemA, c4ItemB], sprintHistories := [],
    itemHistories := [], historyFails := false, now := 30 }

/-- Claim C4: GetReport returns totalItems, completedItems (status Done),
totalStoryPoints and completedStoryPoints (absent story points count 0),
completionPercentage = completedItems/totalItems*100 guarded at 0, and
velocity = stored velocity when set else completedStoryPoints; and on the
concrete scenario (items A Done 5pts and B New 3pts, after Start and
Complete) it reports 2, 1, 8, 5, 50 and 5. -/
theorem C4_getReport (st : Store) (id : Nat) (sprint : Sprint)
    (hfind : SprintRepo.GetByID st id = some sprint) :
    (SprintService.GetReport st id = .ok
      { totalItems := (SprintRepo.GetItemsBySprintID st id).length,
        completedItems := ((SprintRepo.GetItemsBySprintID st id).filter
          (fun i => i.status == itemStatusDone)).length,
        totalStoryPoints := ((SprintRepo.GetItemsBySprintID st id).map
          (fun i => i.storyPoints.getD 0)).sum,
        completedStoryPoints := (((SprintRepo.GetItemsBySprintID st id).filter
          (fun i => i.status == itemStatusDone)).map (fun i => i.storyPoints.getD 0)).sum,
        velocity := (match sprint.velocity with
          | some v => v
          | none => (((SprintRepo.GetItemsBySprintID st id).filter
              (fun i => i.status == itemStatusDone)).map
                (fun i => i.storyPoints.getD 0)).sum),
        completionPercentage :=
          (if (SprintRepo.GetItemsBySprintID st id).length > 0
           then (((SprintRepo.GetItemsBySprintID st id).filter
               (fun i => i.status == itemStatusDone)).length : Rat) /
             ((SprintRepo.GetItemsBySprintID st id).length : Rat) * 100
           else 0) }) ∧
    (∃ r, SprintService.GetReport
        (SprintService.Complete (SprintService.Start c4Store 1 8).1 1 8).1 1 = .ok r ∧
      r.totalItems = 2 ∧ r.completedItems = 1 ∧ r.totalStoryPoints = 8 ∧
      r.completedStoryPoints = 5 ∧ r.completionPercentage = 50 ∧ r.velocity = 5) := by
  constructor
  · simp only [SprintService.GetReport, hfind]
  · refine ⟨_, rfl, ?_, ?_, ?_, ?_, ?_, ?_⟩
    · decide
    · decide
    · decide
    · decide
    · show (if (2 : Nat) > 0 then ((1 : Nat) : Rat) / ((2 : Nat) : Rat) * 100 else 0) = 50
      norm_num
    · decide

/-- Witness for C4 at the scenario store and sprint. -/
theorem C4_getReport_witness :
    SprintRepo.GetByID c4Store 1 = some c4Sprint ∧
    ((SprintService.GetReport c4Store 1 = .ok
      { totalItems := (SprintRepo.GetItemsBySprintID c4Store 1).length,
        completedItems := ((SprintRepo.GetItemsBySprintID c4Store 1).filter
          (fun i => i.status == itemStatusDone)).length,
        totalStoryPoints := ((SprintRepo.GetItemsBySprintID c4Store 1).map
          (fun i => i.storyPoints.getD 0)).sum,
        completedStoryPoints := (((SprintRepo.GetItemsBySprintID c4Store 1).filter
          (fun i => i.status == itemStatusDone)).map (fun i => i.storyPoints.getD 0)).sum,
        velocity := (match c4Sprint.velocity with
          | some v => v
          | none => (((SprintRepo.GetItemsBySprintID c4Store 1).filter
              (fun i => i.status == itemStatusDone)).map
                (fun i => i.storyPoints.getD 0)).sum),
        completionPercentage :=
          (if (SprintRepo.GetItemsBySprintID c4Store 1).length > 0
           then (((SprintRepo.GetItemsBySprintID c4Store 1).filter
               (fun i => i.status == itemStatusDone)).length : Rat) /
             ((SprintRepo.GetItemsBySprintID c4Store 1).length : Rat) * 100
           else 0) }) ∧
    (∃ r, SprintService.GetReport
        (SprintService.Complete (SprintService.Start c4Store 1 8).1 1 8).1 1 = .ok r ∧
      r.totalItems = 2 ∧ r.completedItems = 1 ∧ r.totalStoryPoints = 8 ∧
      r.completedStoryPoints = 5 ∧ r.completionPercentage = 50 ∧ r.velocity = 5)) :=
  ⟨rfl, C4_getReport c4Store 1 c4Sprint rfl⟩

end SB

namespace SB

/-- GetActive finds nothing exactly when no sprint of the project is
Active. -/
theorem getActive_eq_none_iff (st : Store) (pid : Nat) :
    SprintRepo.GetActive st pid = none ↔
      ∀ s2 ∈ st.sprints, s2.projectId = pid → s2.status ≠ sprintStatusActive := by
  unfold SprintRepo.GetActive
  rw [List.find?_eq_none]
  constructor
  · intro h s2 hs2 hp hstat
    have hb := h s2 hs2
    simp [hp, hstat] at hb
  · intro h s2 hs2 hc
    rw [Bool.and_eq_true] at hc
    exact h s2 hs2 (eq_of_beq hc.1) (eq_of_beq hc.2)

/-! ### Claim C1 -/

/-- Claim C1: Start succeeds exactly when the sprint is Planning and no
sprint of the project is Active; a non-Planning sprint fails with
SprintNotPlanning and an Active sibling fails with SprintAlreadyActive,
both leaving the store untouched; on success the sprint is stored as
Active; and for a store with distinct sprint ids, Start preserves the
at-most-one-Active-sprint-per-project invariant. -/
theorem C1_start_active_invariant (st : Store) (id userId : Nat) (sprint : Sprint)
    (hfind : SprintRepo.GetByID st id = some sprint)
    (hnodup : (st.sprints.map Sprint.id).Nodup) :
    (sprint.status ≠ sprintStatusPlanning →
      SprintService.Start st id userId = (st, .error .sprintNotPlanning)) ∧
    (∀ a, sprint.status = sprintStatusPlanning →
      SprintRepo.GetActive st sprint.projectId = some a →
      SprintService.Start st id userId = (st, .error .sprintAlreadyActive)) ∧
    ((∃ s2, (SprintService.Start st id userId).2 = .ok s2) ↔
      (sprint.status = sprintStatusPlanning ∧
       ∀ s2 ∈ st.sprints, s2.projectId = sprint.projectId →
         s2.status ≠ sprintStatusActive)) ∧
    (sprint.status = sprintStatusPlanning →
      SprintRepo.GetActive st sprint.projectId = none →
      SprintRepo.GetByID (SprintService.Start st id userId).1 id =
        some { sprint with status := sprintStatusActive }) ∧
    (∀ pid, (st.sprints.filter (fun s => s.projectId == pid &&
        s.status == sprintStatusActive)).length ≤ 1 →
      ((SprintService.Start st id userId).1.sprints.filter
        (fun s => s.projectId == pid && s.status == sprintStatusActive)).length ≤ 1) := by
  have hNotPlanning : sprint.status ≠ sprintStatusPlanning →
      SprintService.Start st id userId = (st, .error .sprintNotPlanning) := by
    intro h
    have hcond : (sprint.status != sprintStatusPlanning) = true := by simp [h]
    unfold SprintService.Start
    rw [hfind]
    simp [hcond]
  have hActive : ∀ a, sprint.status = sprintStatusPlanning →
      SprintRepo.GetActive st sprint.projectId = some a →
      SprintService.Start st id userId = (st, .error .sprintAlreadyActive) := by
    intro a h1 ha
    have hcond : (sprint.status != sprintStatusPlanning) = false := by simp [h1]
    unfold SprintService.Start
    rw [hfind]
    simp [hcond, ha]
  have hget : SprintRepo.GetByID
      (recordSprintHistory (SprintRepo.UpdateStatus st id sprintStatusActive)
        id userId none "Started") id = some { sprint with status := sprintStatusActive } := by
    rw [getByID_sprint_recordSprintHistory]
    exact getByID_updateStatus_sprint st id sprint sprintStatusActive hfind
  have hSuccess : sprint.status = sprintStatusPlanning →
      SprintRepo.GetActive st sprint.projectId = none →
      SprintService.Start st id userId =
        (recordSprintHistory (SprintRepo.UpdateStatus st id sprintStatusActive)
          id userId none "Started",
         .ok { sprint with status := sprintStatusActive }) := by
    intro h1 h2
    have hcond : (sprint.status != sprintStatusPlanning) = false := by simp [h1]
    unfold SprintService.Start
    rw [hfind]
    simp only [hcond, Bool.false_eq_true, if_false, h2, hget]
  refine ⟨hNotPlanning, hActive, ?_, ?_, ?_⟩
  · constructor
    · rintro ⟨s2, hs2⟩
      by_cases h1 : sprint.status = sprintStatusPlanning
      · by_cases h2 : SprintRepo.GetActive st sprint.projectId = none
        · exact ⟨h1, (getActive_eq_none_iff st sprint.projectId).mp h2⟩
        · obtain ⟨a, ha⟩ := Option.ne_none_iff_exists'.mp h2
          rw [hActive a h1 ha] at hs2
          simp at hs2
      · rw [hNotPlanning h1] at hs2
        simp at hs2
    · rintro ⟨h1, hall⟩
      have h2 : SprintRepo.GetActive st sprint.projectId = none :=
        (getActive_eq_none_iff st sprint.projectId).mpr hall
      rw [hSuccess h1 h2]
      exact ⟨_, rfl⟩
  · intro h1 h2
    rw [hSuccess h1 h2]
    exact hget
  · intro pid hle
    by_cases h1 : sprint.status = sprintStatusPlanning
    · by_cases h2 : SprintRepo.GetActive st sprint.projectId = none
      · rw [hSuccess h1 h2]
        show ((recordSprintHistory (SprintRepo.UpdateStatus st id sprintStatusActive)
            id userId none "Started").sprints.filter
            (fun s => s.projectId == pid && s.status == sprintStatusActive)).length ≤ 1
        have hsprints : (recordSprintHistory (SprintRepo.UpdateStatus st id sprintStatusActive)
            id userId none "Started").sprints =
            st.sprints.map
              (fun s => if s.id == id then { s with status := sprintStatusActive } else s) := by
          rw [sprints_recordSprintHistory]
          rfl
        rw [← List.countP_eq_length_filter] at hle ⊢
        rw [hsprints]
        by_cases hpid : pid = sprint.projectId
        · subst hpid
          have hzero : st.sprints.countP
              (fun s => s.projectId == sprint.projectId && s.status == sprintStatusActive) = 0 := by
            rw [List.countP_eq_zero]
            intro a hc hp
            simp only [Bool.and_eq_true, beq_iff_eq] at hp
            exact ((getActive_eq_none_iff st sprint.projectId).mp h2 a hc hp.1) hp.2
          have hone : st.sprints.countP (fun s => s.id == id) ≤ 1 :=
            countP_id_le_one Sprint.id st.sprints id hnodup
          have hchain := countP_map_le_add st.sprints
            (fun s => if s.id == id then { s with status := sprintStatusActive } else s)
            (fun s => s.projectId == sprint.projectId && s.status == sprintStatusActive)
            (fun s => s.id == id)
            (fun x hx hpfx => by
              by_cases hxid : (x.id == id) = true
              · exact Or.inr hxid
              · left
                have hp2 : ((if x.id == id then { x with status := sprintStatusActive }
                      else x).projectId == sprint.projectId &&
                    (if x.id == id then { x with status := sprintStatusActive }
                      else x).status == sprintStatusActive) = true := hpfx
                rw [if_neg hxid] at hp2
                exact hp2)
          omega
        · have hchain := countP_map_le_add st.sprints
            (fun s => if s.id == id then { s with status := sprintStatusActive } else s)
            (fun s => s.projectId == pid && s.status == sprintStatusActive)
            (fun _ => false)
            (fun x hx hpfx => by
              by_cases hxid : (x.id == id) = true
              · exfalso
                have hxs : x = sprint :=
                  eq_of_mem_of_find_id Sprint.id st.sprints id sprint x hnodup hfind hx
                    (eq_of_beq hxid)
                have hp2 : ((if x.id == id then { x with status := sprintStatusActive }
                      else x).projectId == pid &&
                    (if x.id == id then { x with status := sprintStatusActive }
                      else x).status == sprintStatusActive) = true := hpfx
                rw [if_pos hxid] at hp2
                rw [Bool.and_eq_true] at hp2
                have hpx : x.projectId = pid := eq_of_beq hp2.1
                rw [hxs] at hpx
                exact hpid hpx.symm
              · left
                have hp2 : ((if x.id == id then { x with status := sprintStatusActive }
                      else x).projectId == pid &&
                    (if x.id == id then { x with status := sprintStatusActive }
                      else x).status == sprintStatusActive) = true := hpfx
                rw [if_neg hxid] at hp2
                exact hp2)
          have hzeroq : st.sprints.countP (fun (_ : Sprint) => false) = 0 := by
            rw [List.countP_eq_zero]
            intro a ha
            simp
          omega
      · obtain ⟨a, ha⟩ := Option.ne_none_iff_exists'.mp h2
        rw [hActive a h1 ha]
        exact hle
    · rw [hNotPlanning h1]
      exact hle

def c1Planning : Sprint :=
  { id := 1, projectId := 1, createdById := 2, name := "S1", goal := none,
    startDate := 10, endDate := 20, status := "Planning", velocity := none }

def c1Active : Sprint :=
  { id := 2, projectId := 1, createdById := 2, name := "S2", goal := none,
    startDate := 1, endDate := 9, status := "Active", velocity := none }

def c1Store : Store :=
  { sprints := [c1Planning, c1Active], items := [], sprintHistories := [],
    itemHistories := [], historyFails := false, now := 40 }

/-- Witness for C1: a project with a Planning sprint and an Active
sibling. -/
theorem C1_start_active_invariant_witness :
    (SprintRepo.GetByID c1Store 1 = some c1Planning ∧
     (c1Store.sprints.map Sprint.id).Nodup) ∧
    ((c1Planning.status ≠ sprintStatusPlanning →
       SprintService.Start c1Store 1 2 = (c1Store, .error .sprintNotPlanning)) ∧
     (∀ a, c1Planning.status = sprintStatusPlanning →
       SprintRepo.GetActive c1Store c1Planning.projectId = some a →
       SprintService.Start c1Store 1 2 = (c1Store, .error .sprintAlreadyActive)) ∧
     ((∃ s2, (SprintService.Start c1Store 1 2).2 = .ok s2) ↔
       (c1Planning.status = sprintStatusPlanning ∧
        ∀ s2 ∈ c1Store.sprints, s2.projectId = c1Planning.projectId →
          s2.status ≠ sprintStatusActive)) ∧
     (c1Planning.status = sprintStatusPlanning →
       SprintRepo.GetActive c1Store c1Planning.projectId = none →
       SprintRepo.GetByID (SprintService.Start c1Store 1 2).1 1 =
         some { c1Planning with status := sprintStatusActive }) ∧
     (∀ pid, (c1Store.sprints.filter (fun s => s.projectId == pid &&
         s.status == sprintStatusActive)).length ≤ 1 →
       ((SprintService.Start c1Store 1 2).1.sprints.filter
         (fun s => s.projectId == pid && s.status == sprintStatusActive)).length ≤ 1)) :=
  ⟨⟨rfl, by decide⟩, C1_start_active_invariant c1Store 1 2 c1Planning rfl (by decide)⟩

end SB

namespace SB

/-- GetReport on a sprint whose velocity is stored returns that stored
velocity, whatever the current items are. -/
theorem getReport_stored_velocity (st : Store) (id : Nat) (sprint : Sprint) (v : Int)
    (hfind : SprintRepo.GetByID st id = some sprint) (hv : sprint.velocity = some v) :
    SprintService.GetReport st id = .ok
      { totalItems := (SprintRepo.GetItemsBySprintID st id).length,
        completedItems := ((SprintRepo.GetItemsBySprintID st id).filter
          (fun i => i.status == itemStatusDone)).length,
        totalStoryPoints := ((SprintRepo.GetItemsBySprintID st id).map
          (fun i => i.storyPoints.getD 0)).sum,
        completedStoryPoints := (((SprintRepo.GetItemsBySprintID st id).filter
          (fun i => i.status == itemStatusDone)).map (fun i => i.storyPoints.getD 0)).sum,
        velocity := v,
        completionPercentage :=
          (if (SprintRepo.GetItemsBySprintID st id).length > 0
           then (((SprintRepo.GetItemsBySprintID st id).filter
               (fun i => i.status == itemStatusDone)).length : Rat) /
             ((SprintRepo.GetItemsBySprintID st id).length : Rat) * 100
           else 0) } := by
  simp only [SprintService.GetReport, hfind, hv]

/-! ### Claim C2 -/

/-- Claim C2: Complete requires status Active (else SprintNotActive and an
untouched store); on success it stores status Completed together with
velocity = the sum, over items assigned to the sprint with status Done at
completion time, of their story points; and any later GetReport on a
sprint with a stored velocity returns that stored value, not a live
recomputation. -/
theorem C2_complete_stores_velocity (st : Store) (id userId : Nat) (sprint : Sprint)
    (hfind : SprintRepo.GetByID st id = some sprint) :
    (sprint.status ≠ sprintStatusActive →
      SprintService.Complete st id userId = (st, .error .sprintNotActive)) ∧
    (sprint.status = sprintStatusActive →
      SprintRepo.GetByID (SprintService.Complete st id userId).1 id =
        some { sprint with status := sprintStatusCompleted,
                           velocity := some (SprintRepo.CalculateVelocity st id) } ∧
      (SprintService.Complete st id userId).2 =
        .ok { sprint with status := sprintStatusCompleted,
                          velocity := some (SprintRepo.CalculateVelocity st id) }) ∧
    (SprintRepo.CalculateVelocity st id =
      ((st.items.filter (fun i => i.sprintId == some id && i.status == itemStatusDone)).map
        (fun i => i.storyPoints.getD 0)).sum) ∧
    (∀ st2 s2 v, SprintRepo.GetByID st2 id = some s2 → s2.velocity = some v →
      ∃ r, SprintService.GetReport st2 id = .ok r ∧ r.velocity = v) := by
  have hsp1id : ({ sprint with status := sprintStatusCompleted,
                               velocity := some (SprintRepo.CalculateVelocity st id) } : Sprint).id = sprint.id := rfl
  have hre : SprintRepo.GetByID
      (recordSprintHistory
        (SprintRepo.Update st { sprint with status := sprintStatusCompleted,
                                            velocity := some (SprintRepo.CalculateVelocity st id) }) id userId none "Completed") id =
      some { sprint with status := sprintStatusCompleted,
                         velocity := some (SprintRepo.CalculateVelocity st id) } := by
    rw [getByID_sprint_recordSprintHistory]
    exact getByID_update_sprint st id sprint _ hfind hsp1id
  refine ⟨?_, ?_, rfl, ?_⟩
  · intro h
    have hcond : (sprint.status != sprintStatusActive) = true := by simp [h]
    unfold SprintService.Complete
    rw [hfind]
    simp [hcond]
  · intro h
    have hcond : (sprint.status != sprintStatusActive) = false := by simp [h]
    constructor
    · show SprintRepo.GetByID (SprintService.Complete st id userId).1 id = _
      unfold SprintService.Complete
      rw [hfind]
      simp only [hcond, Bool.false_eq_true, if_false, hre]
    · unfold SprintService.Complete
      rw [hfind]
      simp only [hcond, Bool.false_eq_true, if_false, hre]
  · intro st2 s2 v h1 h2
    exact ⟨_, getReport_stored_velocity st2 id s2 v h1 h2, rfl⟩

def c2Sprint : Sprint :=
  { id := 1, projectId := 1, createdById := 3, name := "S", goal := none,
    startDate := 10, endDate := 20, status := "Active", velocity := none }

def c2Item : BacklogItem :=
  { id := 10, projectId := 1, sprintId := some 1, createdById := 3,
    title := "A", description := none, type := "Story", priority := "High",
    status := "Done", storyPoints := some 7, labels := [], position := 1 }

def c2Store : Store :=
  { sprints := [c2Sprint], items := [c2Item], sprintHistories := [],
    itemHistories := [], historyFails := false, now := 60 }

/-- Witness for C2 at a concrete Active sprint with one Done item. -/
theorem C2_complete_stores_velocity_witness :
    SprintRepo.GetByID c2Store 1 = some c2Sprint ∧
    ((c2Sprint.status ≠ sprintStatusActive →
       SprintService.Complete c2Store 1 3 = (c2Store, .error .sprintNotActive)) ∧
     (c2Sprint.status = sprintStatusActive →
       SprintRepo.GetByID (SprintService.Complete c2Store 1 3).1 1 =
         some { c2Sprint with status := sprintStatusCompleted,
                              velocity := some (SprintRepo.CalculateVelocity c2Store 1) } ∧
       (SprintService.Complete c2Store 1 3).2 =
         .ok { c2Sprint with status := sprintStatusCompleted,
                             velocity := some (SprintRepo.CalculateVelocity c2Store 1) }) ∧
     (SprintRepo.CalculateVelocity c2Store 1 =
       ((c2Store.items.filter
         (fun i => i.sprintId == some 1 && i.status == itemStatusDone)).map
           (fun i => i.storyPoints.getD 0)).sum) ∧
     (∀ st2 s2 v, SprintRepo.GetByID st2 1 = some s2 → s2.velocity = some v →
       ∃ r, SprintService.GetReport st2 1 = .ok r ∧ r.velocity = v)) :=
  ⟨rfl, C2_complete_stores_velocity c2Store 1 3 c2Sprint rfl⟩

end SB

namespace SB

/-! ### Claim C6 -/

/-- Claim C6 (amended): GetActivities fetches both full per-user streams
with no database-side limit, merges them tagged item/sprint, sorts them
descending by timestamp (non-strictly: entries with equal timestamps stay
adjacent in an order the source does not pin down), reports total as the
pre-truncation merged count, returns everything when limit ≤ 0 or when
the merged count is at most the limit, and returns exactly limit entries
when 0 < limit < merged count. -/
theorem C6_getActivities_merge_sort_limit (st : Store) (userId : Nat) (limit : Int) :
    (UserService.GetActivities st userId limit).total =
      (UserService.mergedActivities st userId).length ∧
    List.Sorted actGE (UserService.GetActivities st userId limit).activities ∧
    (limit ≤ 0 →
      (UserService.GetActivities st userId limit).activities.Perm
        (UserService.mergedActivities st userId)) ∧
    (((UserService.mergedActivities st userId).length : Int) ≤ limit →
      (UserService.GetActivities st userId limit).activities.Perm
        (UserService.mergedActivities st userId)) ∧
    (0 < limit → limit < ((UserService.mergedActivities st userId).length : Int) →
      ((UserService.GetActivities st userId limit).activities.length : Int) = limit) ∧
    (UserService.GetActivities st userId limit).limit = limit := by
  have hlen : (List.insertionSort actGE (UserService.mergedActivities st userId)).length =
      (UserService.mergedActivities st userId).length :=
    List.length_insertionSort actGE _
  have hsorted : List.Sorted actGE
      (List.insertionSort actGE (UserService.mergedActivities st userId)) :=
    List.sorted_insertionSort actGE _
  have hperm : (List.insertionSort actGE (UserService.mergedActivities st userId)).Perm
      (UserService.mergedActivities st userId) :=
    List.perm_insertionSort actGE _
  have hact : (UserService.GetActivities st userId limit).activities =
      (if (decide (limit > 0) &&
          decide ((((List.insertionSort actGE
            (UserService.mergedActivities st userId)).length : Int) > limit))) = true
       then (List.insertionSort actGE (UserService.mergedActivities st userId)).take
         limit.toNat
       else List.insertionSort actGE (UserService.mergedActivities st userId)) := rfl
  have htotal : (UserService.GetActivities st userId limit).total =
      (List.insertionSort actGE (UserService.mergedActivities st userId)).length := rfl
  refine ⟨?_, ?_, ?_, ?_, ?_, rfl⟩
  · rw [htotal]
    exact hlen
  · rw [hact]
    by_cases hc : (decide (limit > 0) &&
        decide ((((List.insertionSort actGE
          (UserService.mergedActivities st userId)).length : Int) > limit))) = true
    · rw [if_pos hc]
      exact List.Pairwise.sublist (List.take_sublist _ _) hsorted
    · rw [if_neg hc]
      exact hsorted
  · intro h
    have hpos : decide (limit > 0) = false := by
      have hnp : ¬ limit > 0 := by omega
      exact decide_eq_false hnp
    rw [hact, if_neg (by rw [hpos, Bool.false_and]; exact fun hcc => nomatch hcc)]
    exact hperm
  · intro h
    have hbig : decide ((((List.insertionSort actGE
        (UserService.mergedActivities st userId)).length : Int) > limit)) = false := by
      have hnb : ¬ (((List.insertionSort actGE
          (UserService.mergedActivities st userId)).length : Int) > limit) := by
        rw [hlen]
        omega
      exact decide_eq_false hnb
    rw [hact, if_neg (by rw [hbig, Bool.and_false]; exact fun hcc => nomatch hcc)]
    exact hperm
  · intro h1 h2
    have hc : (decide (limit > 0) &&
        decide ((((List.insertionSort actGE
          (UserService.mergedActivities st userId)).length : Int) > limit))) = true := by
      simp only [Bool.and_eq_true, decide_eq_true_eq]
      constructor
      · exact h1
      · rw [hlen]
        omega
    rw [hact, if_pos hc, List.length_take]
    have htn : limit.toNat ≤ (List.insertionSort actGE
        (UserService.mergedActivities st userId)).length := by
      rw [hlen]
      omega
    rw [min_eq_left htn]
    omega

def c6HistA : ItemHistory :=
  { itemId := 10, userId := 1, action := "Created", fieldChanged := none, timestamp := 5 }

def c6HistB : SprintHistory :=
  { sprintId := 1, userId := 1, itemId := none, action := "Started", timestamp := 5 }

def c6HistC : SprintHistory :=
  { sprintId := 1, userId := 1, itemId := none, action := "Created", timestamp := 3 }

def c6Store : Store :=
  { sprints := [], items := [], sprintHistories := [c6HistB, c6HistC],
    itemHistories := [c6HistA], historyFails := false, now := 9 }

/-- Counterexample to C6 as stated: with three merged entries, two of them
sharing timestamp 5, and limit 2, the two returned entries are NOT sorted
strictly descending by timestamp (their timestamps tie at 5), though the
total is still the pre-truncation count 3. -/
theorem C6_strictness_counterexample :
    ((UserService.GetActivities c6Store 1 2).activities.map
      (fun a => a.timestamp)) = [5, 5] ∧
    ¬ List.Pairwise (fun a b : Int => a > b)
      ((UserService.GetActivities c6Store 1 2).activities.map (fun a => a.timestamp)) ∧
    (UserService.GetActivities c6Store 1 2).total = 3 ∧
    (UserService.GetActivities c6Store 1 2).activities.length = 2 := by
  refine ⟨?_, ?_, ?_, ?_⟩ <;> decide

/-- Witness for the amended C6: the implication hypotheses discharged at a
concrete store with 3 merged entries and limit 2. -/
theorem C6_getActivities_witness :
    (0 < (2 : Int) ∧ (2 : Int) < ((UserService.mergedActivities c6Store 1).length : Int)) ∧
    (UserService.GetActivities c6Store 1 2).total =
      (UserService.mergedActivities c6Store 1).length ∧
    List.Sorted actGE (UserService.GetActivities c6Store 1 2).activities ∧
    ((UserService.GetActivities c6Store 1 2).activities.length : Int) = 2 ∧
    (UserService.GetActivities c6Store 1 2).limit = 2 :=
  ⟨⟨by decide, by decide⟩,
   (C6_getActivities_merge_sort_limit c6Store 1 2).1,
   (C6_getActivities_merge_sort_limit c6Store 1 2).2.1,
   (C6_getActivities_merge_sort_limit c6Store 1 2).2.2.2.2.1 (by decide) (by decide),
   (C6_getActivities_merge_sort_limit c6Store 1 2).2.2.2.2.2⟩

end SB

namespace SB

/-- What backlogService.AddLabel stores: the trimmed label is appended to
the item's labels exactly when absent; when present the stored label set
is untouched (the repository UPDATE is guarded by NOT (l = ANY(labels))). -/
theorem addLabel_service_labels (st : Store) (id userId : Nat) (label : String)
    (item : BacklogItem) (hfind : BacklogRepo.GetByID st id = some item)
    (hlab : (trimSpace label) ≠ "") :
    BacklogRepo.GetByID (BacklogService.AddLabel st id label userId).1 id =
      some (if item.labels.contains (trimSpace label) then item
            else { item with labels := item.labels ++ [(trimSpace label)] }) := by
  have hcond : ((trimSpace label) == "") = false := by
    simpa using hlab
  have hre : BacklogRepo.GetByID
      (recordItemHistory (BacklogRepo.AddLabel st id (trimSpace label)) id userId "LabelAdded" none)
      id = some (if item.labels.contains (trimSpace label) then item
        else { item with labels := item.labels ++ [(trimSpace label)] }) := by
    rw [getByID_item_recordItemHistory]
    exact getByID_addLabel_item st id item (trimSpace label) hfind
  unfold BacklogService.AddLabel
  simp only [hcond, Bool.false_eq_true, if_false, hfind, hre]

/-! ### Claim C7 -/

/-- Claim C7: AddLabel is idempotent on the stored label set — adding a
label the item already carries leaves the stored labels unchanged, the
count of the label after an add is max 1 (its previous count) so no
duplicate is ever introduced, and a second AddLabel of the same label
leaves the label set of the first result unchanged. -/
theorem C7_addLabel_idempotent (st : Store) (id userId : Nat) (label : String)
    (item : BacklogItem) (hfind : BacklogRepo.GetByID st id = some item)
    (hlab : (trimSpace label) ≠ "") :
    (BacklogRepo.GetByID (BacklogService.AddLabel st id label userId).1 id =
      some (if item.labels.contains (trimSpace label) then item
            else { item with labels := item.labels ++ [(trimSpace label)] })) ∧
    (item.labels.contains (trimSpace label) = true →
      BacklogRepo.GetByID (BacklogService.AddLabel st id label userId).1 id = some item) ∧
    (∀ it2, BacklogRepo.GetByID (BacklogService.AddLabel st id label userId).1 id = some it2 →
      it2.labels.count (trimSpace label) = max 1 (item.labels.count (trimSpace label))) ∧
    (∀ it1 it2,
      BacklogRepo.GetByID (BacklogService.AddLabel st id label userId).1 id = some it1 →
      BacklogRepo.GetByID
        (BacklogService.AddLabel (BacklogService.AddLabel st id label userId).1
          id label userId).1 id = some it2 →
      it2.labels = it1.labels) := by
  have hkey := addLabel_service_labels st id userId label item hfind hlab
  refine ⟨hkey, ?_, ?_, ?_⟩
  · intro hc
    rw [hkey, if_pos hc]
  · intro it2 h2
    rw [hkey] at h2
    have hv := Option.some.inj h2
    subst hv
    by_cases hc : item.labels.contains (trimSpace label) = true
    · rw [if_pos hc]
      have hmem : (trimSpace label) ∈ item.labels := by
        simpa using hc
      have hne : item.labels.count (trimSpace label) ≠ 0 :=
        fun h0 => (List.count_eq_zero.mp h0) hmem
      omega
    · rw [if_neg hc]
      have hmem : (trimSpace label) ∉ item.labels := by
        simpa using hc
      have hzero : item.labels.count (trimSpace label) = 0 := List.count_eq_zero.mpr hmem
      show (item.labels ++ [(trimSpace label)]).count (trimSpace label) = _
      rw [List.count_append, hzero]
      simp
  · intro it1 it2 h1 h2
    rw [hkey] at h1
    have hv1 := Option.some.inj h1
    subst hv1
    have hmem1 : (if item.labels.contains (trimSpace label) then item
        else { item with labels := item.labels ++ [(trimSpace label)] }).labels.contains
        (trimSpace label) = true := by
      by_cases hc : item.labels.contains (trimSpace label) = true
      · rw [if_pos hc]
        exact hc
      · rw [if_neg hc]
        show (item.labels ++ [(trimSpace label)]).contains (trimSpace label) = true
        simp
    have hkey2 := addLabel_service_labels (BacklogService.AddLabel st id label userId).1
      id userId label _ hkey hlab
    rw [hkey2] at h2
    have hv2 := Option.some.inj h2
    subst hv2
    rw [if_pos hmem1]

def c7Item : BacklogItem :=
  { id := 10, projectId := 1, sprintId := none, createdById := 2,
    title := "A", description := none, type := "Bug", priority := "High",
    status := "New", storyPoints := none, labels := ["bug", "ui"], position := 1 }

def c7Store : Store :=
  { sprints := [], items := [c7Item], sprintHistories := [],
    itemHistories := [], historyFails := false, now := 7 }

/-- Witness for C7: adding the label bug, already present on the item. -/
theorem C7_addLabel_idempotent_witness :
    (BacklogRepo.GetByID c7Store 10 = some c7Item ∧ (trimSpace "bug") ≠ "") ∧
    ((BacklogRepo.GetByID (BacklogService.AddLabel c7Store 10 "bug" 2).1 10 =
      some (if c7Item.labels.contains (trimSpace "bug") then c7Item
            else { c7Item with labels := c7Item.labels ++ [(trimSpace "bug")] })) ∧
     (c7Item.labels.contains (trimSpace "bug") = true →
       BacklogRepo.GetByID (BacklogService.AddLabel c7Store 10 "bug" 2).1 10 = some c7Item) ∧
     (∀ it2, BacklogRepo.GetByID (BacklogService.AddLabel c7Store 10 "bug" 2).1 10 =
         some it2 →
       it2.labels.count (trimSpace "bug") =
         max 1 (c7Item.labels.count (trimSpace "bug"))) ∧
     (∀ it1 it2,
       BacklogRepo.GetByID (BacklogService.AddLabel c7Store 10 "bug" 2).1 10 = some it1 →
       BacklogRepo.GetByID
         (BacklogService.AddLabel (BacklogService.AddLabel c7Store 10 "bug" 2).1
           10 "bug" 2).1 10 = some it2 →
       it2.labels = it1.labels)) :=
  ⟨⟨rfl, by decide⟩, C7_addLabel_idempotent c7Store 10 2 "bug" c7Item rfl (by decide)⟩

end SB

namespace SB

/-! ### Claim C9 -/

/-- Claim C9: backlog-item Create rejects a type, priority or (defaulted)
status outside the enumerated values with the matching validation error
and an untouched store; an unspecified status defaults to New; the stored
position is the current maximum position in the project plus 1; and
exactly one Created history row is appended for the new item. -/
theorem C9_backlog_create (st : Store) (req : CreateBacklogItemRequest) (userId : Nat)
    (hfail : st.historyFails = false) :
    (itemTypeIsValid req.type = false →
      BacklogService.Create st req userId = (st, .error .invalidItemType)) ∧
    (itemTypeIsValid req.type = true → priorityIsValid req.priority = false →
      BacklogService.Create st req userId = (st, .error .invalidPriority)) ∧
    (itemTypeIsValid req.type = true → priorityIsValid req.priority = true →
      itemStatusIsValid (if req.status == "" then itemStatusNew else req.status) = false →
      BacklogService.Create st req userId = (st, .error .invalidStatus)) ∧
    (itemTypeIsValid req.type = true → priorityIsValid req.priority = true →
      itemStatusIsValid (if req.status == "" then itemStatusNew else req.status) = true →
      (BacklogService.Create st req userId).2 =
        .ok (BacklogService.newItem st req userId
          (if req.status == "" then itemStatusNew else req.status)) ∧
      (req.status = "" →
        (BacklogService.newItem st req userId
          (if req.status == "" then itemStatusNew else req.status)).status = itemStatusNew) ∧
      (BacklogService.newItem st req userId
        (if req.status == "" then itemStatusNew else req.status)).position =
        BacklogRepo.GetMaxPosition st req.projectId + 1 ∧
      (BacklogService.Create st req userId).1.itemHistories =
        st.itemHistories ++
          [{ itemId := freshItemId st, userId := userId, action := "Created",
             fieldChanged := none, timestamp := st.now }]) := by
  refine ⟨?_, ?_, ?_, ?_⟩
  · intro h
    have hc1 : (!itemTypeIsValid req.type) = true := by simp [h]
    unfold BacklogService.Create
    rw [if_pos hc1]
  · intro ht hp
    have hc1 : (!itemTypeIsValid req.type) = false := by simp [ht]
    have hc2 : (!priorityIsValid req.priority) = true := by simp [hp]
    unfold BacklogService.Create
    rw [if_neg (by rw [hc1]; exact fun hcc => nomatch hcc), if_pos hc2]
  · intro ht hp hs
    have hc1 : (!itemTypeIsValid req.type) = false := by simp [ht]
    have hc2 : (!priorityIsValid req.priority) = false := by simp [hp]
    have hc3 : (!itemStatusIsValid (if req.status == "" then itemStatusNew else req.status))
        = true := by
      rw [hs]
      rfl
    unfold BacklogService.Create
    rw [if_neg (by rw [hc1]; exact fun hcc => nomatch hcc),
      if_neg (by rw [hc2]; exact fun hcc => nomatch hcc), if_pos hc3]
  · intro ht hp hs
    have hc1 : (!itemTypeIsValid req.type) = false := by simp [ht]
    have hc2 : (!priorityIsValid req.priority) = false := by simp [hp]
    have hc3 : (!itemStatusIsValid (if req.status == "" then itemStatusNew else req.status))
        = false := by
      rw [hs]
      rfl
    have hre : BacklogRepo.GetByID
        (recordItemHistory
          (BacklogRepo.Create st (BacklogService.newItem st req userId
            (if req.status == "" then itemStatusNew else req.status)))
          (BacklogService.newItem st req userId
            (if req.status == "" then itemStatusNew else req.status)).id
          userId "Created" none)
        (BacklogService.newItem st req userId
          (if req.status == "" then itemStatusNew else req.status)).id =
        some (BacklogService.newItem st req userId
          (if req.status == "" then itemStatusNew else req.status)) := by
      rw [getByID_item_recordItemHistory]
      exact getByID_create_item st _ (fun x hx => freshItemId_not_mem st x hx)
    refine ⟨?_, ?_, rfl, ?_⟩
    · unfold BacklogService.Create
      simp only [hc1, hc2, hc3, Bool.false_eq_true, if_false, hre]
    · intro h0
      show (if req.status == "" then itemStatusNew else req.status) = itemStatusNew
      simp [h0]
    · have h1 : (BacklogService.Create st req userId).1 =
          recordItemHistory
            (BacklogRepo.Create st (BacklogService.newItem st req userId
              (if req.status == "" then itemStatusNew else req.status)))
            (BacklogService.newItem st req userId
              (if req.status == "" then itemStatusNew else req.status)).id
            userId "Created" none := by
        unfold BacklogService.Create
        simp only [hc1, hc2, hc3, Bool.false_eq_true, if_false, hre]
      rw [h1]
      have hfail2 : (BacklogRepo.Create st (BacklogService.newItem st req userId
          (if req.status == "" then itemStatusNew else req.status))).historyFails = false := hfail
      rw [itemHistories_recordItemHistory _ _ _ _ _ hfail2]
      rfl

def c9Item : BacklogItem :=
  { id := 3, projectId := 1, sprintId := none, createdById := 2,
    title := "Old", description := none, type := "Task", priority := "Low",
    status := "New", storyPoints := none, labels := [], position := 5 }

def c9Store : Store :=
  { sprints := [], items := [c9Item], sprintHistories := [],
    itemHistories := [], historyFails := false, now := 12 }

def c9Req : CreateBacklogItemRequest :=
  { projectId := 1, title := "New story", description := "", type := "Story",
    priority := "High", status := "", storyPoints := some 2, labels := [],
    sprintId := none }

/-- Witness for C9: a valid creation request with unspecified status on a
project whose maximum position is 5. -/
theorem C9_backlog_create_witness :
    c9Store.historyFails = false ∧
    ((itemTypeIsValid c9Req.type = false →
       BacklogService.Create c9Store c9Req 2 = (c9Store, .error .invalidItemType)) ∧
     (itemTypeIsValid c9Req.type = true → priorityIsValid c9Req.priority = false →
       BacklogService.Create c9Store c9Req 2 = (c9Store, .error .invalidPriority)) ∧
     (itemTypeIsValid c9Req.type = true → priorityIsValid c9Req.priority = true →
       itemStatusIsValid (if c9Req.status == "" then itemStatusNew else c9Req.status) = false →
       BacklogService.Create c9Store c9Req 2 = (c9Store, .error .invalidStatus)) ∧
     (itemTypeIsValid c9Req.type = true → priorityIsValid c9Req.priority = true →
       itemStatusIsValid (if c9Req.status == "" then itemStatusNew else c9Req.status) = true →
       (BacklogService.Create c9Store c9Req 2).2 =
         .ok (BacklogService.newItem c9Store c9Req 2
           (if c9Req.status == "" then itemStatusNew else c9Req.status)) ∧
       (c9Req.status = "" →
         (BacklogService.newItem c9Store c9Req 2
           (if c9Req.status == "" then itemStatusNew else c9Req.status)).status =
           itemStatusNew) ∧
       (BacklogService.newItem c9Store c9Req 2
         (if c9Req.status == "" then itemStatusNew else c9Req.status)).position =
         BacklogRepo.GetMaxPosition c9Store c9Req.projectId + 1 ∧
       (BacklogService.Create c9Store c9Req 2).1.itemHistories =
         c9Store.itemHistories ++
           [{ itemId := freshItemId c9Store, userId := 2, action := "Created",
              fieldChanged := none, timestamp := c9Store.now }])) :=
  ⟨rfl, C9_backlog_create c9Store c9Req 2 rfl⟩

/-! ### Claim C8 -/

def c8Sprint : Sprint :=
  { id := 1, projectId := 1, createdById := 5, name := "S", goal := none,
    startDate := 10, endDate := 20, status := "Planning", velocity := none }

def c8Item : BacklogItem :=
  { id := 10, projectId := 1, sprintId := none, createdById := 5,
    title := "A", description := none, type := "Task", priority := "Low",
    status := "New", storyPoints := none, labels := [], position := 1 }

def c8Store : Store :=
  { sprints := [c8Sprint], items := [c8Item], sprintHistories := [],
    itemHistories := [], historyFails := true, now := 25 }

/-- Claim C8 evaluated at a failing history store: the Go helpers
recordSprintHistory and recordHistory discard the error returned by the
ledger Create, so when every history insert fails, sprint Start and item
UpdateStatus still report success, persist the state change, and write no
ledger row — the failure does NOT propagate to the caller. -/
theorem C8_history_failure_not_propagated :
    c8Store.historyFails = true ∧
    (SprintService.Start c8Store 1 5).2 =
      .ok { c8Sprint with status := sprintStatusActive } ∧
    (SprintService.Start c8Store 1 5).1.sprints =
      [{ c8Sprint with status := sprintStatusActive }] ∧
    (SprintService.Start c8Store 1 5).1.sprintHistories = [] ∧
    (BacklogService.UpdateStatus c8Store 10 "Done" 5).2 =
      .ok { c8Item with status := "Done" } ∧
    (BacklogService.UpdateStatus c8Store 10 "Done" 5).1.items =
      [{ c8Item with status := "Done" }] ∧
    (BacklogService.UpdateStatus c8Store 10 "Done" 5).1.itemHistories = [] := by
  exact ⟨rfl, rfl, rfl, rfl, rfl, rfl, rfl⟩

end SB

namespace SB

/-- Setting an already-nil sprint reference is the identity on the item. -/
theorem item_set_sprint_none (item : BacklogItem) (h : item.sprintId = none) :
    ({ item with sprintId := none } : BacklogItem) = item := by
  cases item
  simp_all

/-! ### Claim C5 -/

/-- Claim C5 (amended): a successful AddItem immediately followed by
RemoveItem of the same pair stores the item with a nil sprint
reference — equal to its prior value exactly when the item was not in
any sprint before AddItem — and appends exactly 2 sprint-history rows
(ItemAdded then ItemRemoved) and exactly 2 item-history rows
(SprintAssigned then SprintRemoved) when the ledger writes succeed. -/
theorem C5_addItem_removeItem_roundtrip (st : Store) (sid iid userId : Nat)
    (sprint : Sprint) (item : BacklogItem)
    (hsp : SprintRepo.GetByID st sid = some sprint)
    (hit : BacklogRepo.GetByID st iid = some item)
    (hnot : item.sprintId ≠ some sid)
    (hfail : st.historyFails = false) :
    BacklogRepo.GetByID
        (SprintService.RemoveItem (SprintService.AddItem st sid iid userId).1 sid iid userId).1
        iid = some { item with sprintId := none } ∧
    (item.sprintId = none →
      BacklogRepo.GetByID
        (SprintService.RemoveItem (SprintService.AddItem st sid iid userId).1 sid iid userId).1
        iid = some item) ∧
    (SprintService.RemoveItem (SprintService.AddItem st sid iid userId).1
        sid iid userId).1.sprintHistories =
      st.sprintHistories ++
        [{ sprintId := sid, userId := userId, itemId := some iid,
           action := "ItemAdded", timestamp := st.now },
         { sprintId := sid, userId := userId, itemId := some iid,
           action := "ItemRemoved", timestamp := st.now }] ∧
    (SprintService.RemoveItem (SprintService.AddItem st sid iid userId).1
        sid iid userId).1.itemHistories =
      st.itemHistories ++
        [{ itemId := iid, userId := userId, action := "SprintAssigned",
           fieldChanged := some "sprint_id", timestamp := st.now },
         { itemId := iid, userId := userId, action := "SprintRemoved",
           fieldChanged := some "sprint_id", timestamp := st.now }] := by
  have hcond : (item.sprintId == some sid) = false := by
    simpa using hnot
  have hAdd : (SprintService.AddItem st sid iid userId).1 =
      recordItemHistory
        (recordSprintHistory (BacklogRepo.Update st { item with sprintId := some sid })
          sid userId (some iid) "ItemAdded")
        iid userId "SprintAssigned" (some "sprint_id") := by
    unfold SprintService.AddItem
    simp only [hsp, hit, hcond, Bool.false_eq_true, if_false]
  set stA := recordItemHistory
      (recordSprintHistory (BacklogRepo.Update st { item with sprintId := some sid })
        sid userId (some iid) "ItemAdded")
      iid userId "SprintAssigned" (some "sprint_id") with hstA
  have hspA : SprintRepo.GetByID stA sid = some sprint := by
    rw [hstA, getByID_sprint_recordItemHistory, getByID_sprint_recordSprintHistory]
    exact hsp
  have hitA : BacklogRepo.GetByID stA iid = some { item with sprintId := some sid } := by
    rw [hstA, getByID_item_recordItemHistory, getByID_item_recordSprintHistory]
    exact getByID_update_item st iid item { item with sprintId := some sid } hit rfl
  have hcond2 : (({ item with sprintId := some sid } : BacklogItem).sprintId != some sid)
      = false := by
    simp
  have hRem : (SprintService.RemoveItem stA sid iid userId).1 =
      recordItemHistory
        (recordSprintHistory
          (BacklogRepo.Update stA
            { ({ item with sprintId := some sid } : BacklogItem) with sprintId := none })
          sid userId (some iid) "ItemRemoved")
        iid userId "SprintRemoved" (some "sprint_id") := by
    unfold SprintService.RemoveItem
    simp only [hspA, hitA, hcond2, Bool.false_eq_true, if_false]
  have hfailU0 : (BacklogRepo.Update st
      ({ item with sprintId := some sid } : BacklogItem)).historyFails = false := hfail
  have hfailA : stA.historyFails = false := by
    rw [hstA, historyFails_recordItemHistory, historyFails_recordSprintHistory]
    exact hfail
  have hnowA : stA.now = st.now := by
    rw [hstA, now_recordItemHistory, now_recordSprintHistory]
    rfl
  have hfailU1 : (BacklogRepo.Update stA
      { ({ item with sprintId := some sid } : BacklogItem) with
        sprintId := none }).historyFails = false := hfailA
  have hGetFinal : BacklogRepo.GetByID (SprintService.RemoveItem stA sid iid userId).1 iid =
      some { item with sprintId := none } := by
    rw [hRem, getByID_item_recordItemHistory, getByID_item_recordSprintHistory]
    exact getByID_update_item stA iid { item with sprintId := some sid }
      { ({ item with sprintId := some sid } : BacklogItem) with sprintId := none } hitA rfl
  have hSprintHistA : stA.sprintHistories = st.sprintHistories ++
      [{ sprintId := sid, userId := userId, itemId := some iid,
         action := "ItemAdded", timestamp := st.now }] := by
    rw [hstA, sprintHistories_recordItemHistory,
      sprintHistories_recordSprintHistory _ _ _ _ _ hfailU0]
    rfl
  have hItemHistA : stA.itemHistories = st.itemHistories ++
      [{ itemId := iid, userId := userId, action := "SprintAssigned",
         fieldChanged := some "sprint_id", timestamp := st.now }] := by
    rw [hstA]
    have hfailR : (recordSprintHistory (BacklogRepo.Update st
        ({ item with sprintId := some sid } : BacklogItem))
        sid userId (some iid) "ItemAdded").historyFails = false := by
      rw [historyFails_recordSprintHistory]
      exact hfail
    rw [itemHistories_recordItemHistory _ _ _ _ _ hfailR,
      itemHistories_recordSprintHistory, now_recordSprintHistory]
    rfl
  refine ⟨?_, ?_, ?_, ?_⟩
  · rw [hAdd]
    exact hGetFinal
  · intro h0
    rw [hAdd, hGetFinal, item_set_sprint_none item h0]
  · rw [hAdd, hRem, sprintHistories_recordItemHistory,
      sprintHistories_recordSprintHistory _ _ _ _ _ hfailU1]
    have hU1hist : (BacklogRepo.Update stA
        { ({ item with sprintId := some sid } : BacklogItem) with
          sprintId := none }).sprintHistories = stA.sprintHistories := rfl
    have hU1now : (BacklogRepo.Update stA
        { ({ item with sprintId := some sid } : BacklogItem) with
          sprintId := none }).now = stA.now := rfl
    rw [hU1hist, hU1now, hSprintHistA, hnowA, List.append_assoc]
    rfl
  · rw [hAdd, hRem]
    have hfailR1 : (recordSprintHistory (BacklogRepo.Update stA
        { ({ item with sprintId := some sid } : BacklogItem) with sprintId := none })
        sid userId (some iid) "ItemRemoved").historyFails = false := by
      rw [historyFails_recordSprintHistory]
      exact hfailA
    rw [itemHistories_recordItemHistory _ _ _ _ _ hfailR1,
      itemHistories_recordSprintHistory, now_recordSprintHistory]
    have hU1hist : (BacklogRepo.Update stA
        { ({ item with sprintId := some sid } : BacklogItem) with
          sprintId := none }).itemHistories = stA.itemHistories := rfl
    have hU1now : (BacklogRepo.Update stA
        { ({ item with sprintId := some sid } : BacklogItem) with
          sprintId := none }).now = stA.now := rfl
    rw [hU1hist, hU1now, hItemHistA, hnowA, List.append_assoc]
    rfl

def c5Sprint : Sprint :=
  { id := 1, projectId := 1, createdById := 4, name := "S1", goal := none,
    startDate := 10, endDate := 20, status := "Planning", velocity := none }

def c5Item : BacklogItem :=
  { id := 10, projectId := 1, sprintId := none, createdById := 4,
    title := "A", description := none, type := "Task", priority := "Low",
    status := "New", storyPoints := none, labels := [], position := 1 }

def c5Store : Store :=
  { sprints := [c5Sprint], items := [c5Item], sprintHistories := [],
    itemHistories := [], historyFails := false, now := 77 }

/-- Witness for the amended C5: an unassigned item added to and removed
from sprint 1. -/
theorem C5_addItem_removeItem_roundtrip_witness :
    (SprintRepo.GetByID c5Store 1 = some c5Sprint ∧
     BacklogRepo.GetByID c5Store 10 = some c5Item ∧
     c5Item.sprintId ≠ some 1 ∧ c5Store.historyFails = false) ∧
    (BacklogRepo.GetByID
        (SprintService.RemoveItem (SprintService.AddItem c5Store 1 10 4).1 1 10 4).1
        10 = some { c5Item with sprintId := none } ∧
     (c5Item.sprintId = none →
       BacklogRepo.GetByID
         (SprintService.RemoveItem (SprintService.AddItem c5Store 1 10 4).1 1 10 4).1
         10 = some c5Item) ∧
     (SprintService.RemoveItem (SprintService.AddItem c5Store 1 10 4).1
         1 10 4).1.sprintHistories =
       c5Store.sprintHistories ++
         [{ sprintId := 1, userId := 4, itemId := some 10,
            action := "ItemAdded", timestamp := c5Store.now },
          { sprintId := 1, userId := 4, itemId := some 10,
            action := "ItemRemoved", timestamp := c5Store.now }] ∧
     (SprintService.RemoveItem (SprintService.AddItem c5Store 1 10 4).1
         1 10 4).1.itemHistories =
       c5Store.itemHistories ++
         [{ itemId := 10, userId := 4, action := "SprintAssigned",
            fieldChanged := some "sprint_id", timestamp := c5Store.now },
          { itemId := 10, userId := 4, action := "SprintRemoved",
            fieldChanged := some "sprint_id", timestamp := c5Store.now }]) :=
  ⟨⟨rfl, rfl, by decide, rfl⟩,
   C5_addItem_removeItem_roundtrip c5Store 1 10 4 c5Sprint c5Item rfl rfl (by decide) rfl⟩

def c5xSprintB : Sprint :=
  { id := 2, projectId := 1, createdById := 4, name := "S2", goal := none,
    startDate := 1, endDate := 5, status := "Completed", velocity := none }

def c5xItem : BacklogItem :=
  { id := 10, projectId := 1, sprintId := some 2, createdById := 4,
    title := "A", description := none, type := "Task", priority := "Low",
    status := "New", storyPoints := none, labels := [], position := 1 }

def c5xStore : Store :=
  { sprints := [c5Sprint, c5xSprintB], items := [c5xItem], sprintHistories := [],
    itemHistories := [], historyFails := false, now := 77 }

/-- Counterexample to C5 as stated: the item starts in sprint 2, AddItem
moves it into sprint 1 (this succeeds — only membership in the SAME
sprint is rejected), and RemoveItem then clears the reference to nil
instead of restoring the prior value, sprint 2. -/
theorem C5_roundtrip_counterexample :
    c5xItem.sprintId = some 2 ∧
    (SprintService.AddItem c5xStore 1 10 4).2 =
      .ok [{ c5xItem with sprintId := some 1 }] ∧
    BacklogRepo.GetByID
        (SprintService.RemoveItem (SprintService.AddItem c5xStore 1 10 4).1 1 10 4).1
        10 = some { c5xItem with sprintId := none } ∧
    ({ c5xItem with sprintId := none } : BacklogItem).sprintId ≠ c5xItem.sprintId := by
  exact ⟨rfl, rfl, rfl, by decide⟩

end SB
